import Mathlib

/-!
Verification of the `go-s3-overwrite` package (`overwrite.go`).

The Go package overwrites an S3 object while preserving its attributes
(grants, tags, descriptive headers).  This file gives a shallow embedding of
the package:

* the pure helpers (`buildTaggingString`, `buildGrantString`,
  `addGrantsToInput`, `hasWriteGrant`, `convertMetadataToPointers`,
  `convertMetadataFromPointers`) are translated directly into Lean functions;
* the S3 client (`S3Client` interface) and the local file system (temp file
  creation, `io.Copy`, `Seek`, `os.Open`) are modelled as oracles whose
  outcomes are part of the input;
* the two orchestrators `OverwriteS3Object` and `OverwriteS3ObjectWithAcl`
  are translated statement by statement; they return a `RunResult` together
  with the list of observable events (store calls, temp-file creation and
  removal) in the order the Go code performs them.  Go `defer` statements run
  in LIFO order on every exit path, so each exit appends the pending removal
  events accordingly.

Modelling conventions:

* a Go `*string` is an `Option String`; `aws.ToString` is `Option.getD ""`;
* Go maps are association lists (`List (String × _)`); a nil map is `none`;
* a nil-pointer dereference (possible in `buildGrantString` when a grant has
  a nil `Grantee`) is modelled by an `Option` result, `none` meaning the Go
  program crashes; the orchestrator surfaces this as `RunResult.panicked`;
* the callback may mutate the (shared, in-place) metadata map of the
  `ObjectInfo` it receives; this is modelled by the callback returning the
  final contents of that map.  When the original object carried a nil
  metadata map the callback cannot change it in place (the struct is passed
  by value in Go), so the orchestrator ignores the returned map in that case.
-/

namespace S3Overwrite

/-- `aws.ToString`: dereference a `*string`, `""` when nil. -/
def awsToString (s : Option String) : String := s.getD ""

/-- `aws.ToInt32` lifted to the model: dereference a `*int32`, `0` when nil. -/
def awsToInt32 (n : Option Int) : Int := n.getD 0

/-- Upper-case hexadecimal digit, as Go's `"0123456789ABCDEF"[n]`. -/
def hexDigit (n : Nat) : Char :=
  if n < 10 then Char.ofNat (48 + n) else Char.ofNat (55 + n)

/-- Whether a byte is left unescaped by Go's `url.QueryEscape`
(alphanumerics and `-`, `_`, `.`, `~`). -/
def isUnreservedByte (b : Nat) : Bool :=
  (48 ≤ b && b ≤ 57) || (65 ≤ b && b ≤ 90) || (97 ≤ b && b ≤ 122) ||
  b == 45 || b == 95 || b == 46 || b == 126

/-- Escape a single byte as Go's `url.QueryEscape` does: unreserved bytes
stand for themselves, a space becomes `+`, everything else becomes `%XX`. -/
def queryEscapeByte (b : Nat) : String :=
  if isUnreservedByte b then String.singleton (Char.ofNat b)
  else if b == 32 then "+"
  else "%" ++ String.singleton (hexDigit (b / 16)) ++ String.singleton (hexDigit (b % 16))

/-- Go's `url.QueryEscape`: percent-encode the UTF-8 bytes of a string. -/
def queryEscape (s : String) : String :=
  String.join (s.toUTF8.data.toList.map (fun b => queryEscapeByte b.toNat))

/-- `types.Grantee`: at most one of the three identifiers is populated in a
well-formed grantee; all three are `*string` in the SDK. -/
structure Grantee where
  id : Option String
  uri : Option String
  emailAddress : Option String
  deriving DecidableEq, Repr

/-- `types.Grant`: a (grantee, permission) pair; `Grantee` is a pointer in
the SDK, hence the `Option`. -/
structure Grant where
  grantee : Option Grantee
  permission : String
  deriving DecidableEq, Repr

/-- `types.Tag`: key and value are `*string` in the SDK. -/
structure Tag where
  key : Option String
  value : Option String
  deriving DecidableEq, Repr

/-- The fields of `s3.GetObjectOutput` read by the package.  `StorageClass`
is a plain string type in the SDK (empty when unset); `TagCount` is a
`*int32`. -/
structure GetObjectOutput where
  contentType : Option String
  contentLength : Option Int
  etag : Option String
  lastModified : Option Int
  cacheControl : Option String
  contentDisposition : Option String
  contentEncoding : Option String
  contentLanguage : Option String
  websiteRedirectLocation : Option String
  storageClass : String
  metadata : Option (List (String × String))
  tagCount : Option Int
  versionId : Option String
  deriving DecidableEq, Repr

/-- `ObjectInfo` as handed to the callback. -/
structure ObjectInfo where
  bucket : String
  key : String
  contentType : Option String
  contentLength : Option Int
  etag : Option String
  lastModified : Option Int
  metadata : Option (List (String × Option String))
  storageClass : Option String
  tagCount : Option Int
  versionId : Option String
  deriving DecidableEq, Repr

/-- The fields of `s3.PutObjectInput` used by the package.  The SDK type has
grant fields for READ, READ_ACP, WRITE_ACP and FULL_CONTROL only — there is
no WRITE grant field on the write-object request. -/
structure PutObjectInput where
  bucket : Option String
  key : Option String
  acl : String
  contentType : Option String
  cacheControl : Option String
  contentDisposition : Option String
  contentEncoding : Option String
  contentLanguage : Option String
  websiteRedirectLocation : Option String
  storageClass : String
  metadata : Option (List (String × String))
  tagging : Option String
  grantRead : Option String
  grantReadACP : Option String
  grantWriteACP : Option String
  grantFullControl : Option String
  deriving DecidableEq, Repr

/-- The fields of `s3.PutObjectAclInput` used by the package; unlike
`PutObjectInput` it has a WRITE grant field. -/
structure PutObjectAclInput where
  bucket : Option String
  key : Option String
  grantRead : Option String
  grantReadACP : Option String
  grantWriteACP : Option String
  grantFullControl : Option String
  grantWrite : Option String
  deriving DecidableEq, Repr

/-- `convertMetadataToPointers`: `map[string]string → map[string]*string`,
nil map to nil map. -/
def convertMetadataToPointers :
    Option (List (String × String)) → Option (List (String × Option String))
  | none => none
  | some m => some (m.map (fun kv => (kv.1, some kv.2)))

/-- `convertMetadataFromPointers`: `map[string]*string → map[string]string`,
nil map to nil map, entries with a nil value pointer dropped. -/
def convertMetadataFromPointers :
    Option (List (String × Option String)) → Option (List (String × String))
  | none => none
  | some m =>
    some (m.filterMap (fun kv =>
      match kv.2 with
      | none => none
      | some v => some (kv.1, v)))

/-- One `key=value` pair of the tagging string, both parts query-escaped. -/
def tagPair (t : Tag) : String :=
  queryEscape (awsToString t.key) ++ "=" ++ queryEscape (awsToString t.value)

/-- `buildTaggingString`: the Go loop over the tag list, prefixing `&` from
the second element on. -/
def buildTaggingString (tags : List Tag) : String :=
  if tags.length = 0 then ""
  else
    (tags.enum).foldl
      (fun result p => result ++ (if p.1 > 0 then "&" else "") ++ tagPair p.2) ""

/-- The grantee strings collected by `buildGrantString`'s loop: for each
grant matching the permission, dereference its grantee (`none` = nil
dereference, the Go program crashes) and render the first populated
identifier; a grantee with no populated identifier contributes nothing. -/
def collectGrantees : List Grant → String → Option (List String)
  | [], _ => some []
  | g :: gs, permission =>
    if g.permission = permission then
      match g.grantee with
      | none => none
      | some gr =>
        match collectGrantees gs permission with
        | none => none
        | some rest =>
          match gr.id with
          | some v => some (("id=\"" ++ v ++ "\"") :: rest)
          | none =>
            match gr.uri with
            | some v => some (("uri=\"" ++ v ++ "\"") :: rest)
            | none =>
              match gr.emailAddress with
              | some v => some (("emailaddress=\"" ++ v ++ "\"") :: rest)
              | none => some rest
    else collectGrantees gs permission

/-- `buildGrantString`: comma-join the collected grantee strings, empty
string when none matched; `none` models the nil-grantee crash. -/
def buildGrantString (grants : List Grant) (permission : String) : Option String :=
  match collectGrantees grants permission with
  | none => none
  | some gs => some (if gs.length = 0 then "" else String.intercalate "," gs)

/-- `hasWriteGrant`: whether any grant has permission WRITE
(`types.PermissionWrite`). -/
def hasWriteGrant (grants : List Grant) : Bool :=
  grants.any (fun g => g.permission = "WRITE")

/-- The `*s3.PutObjectInput` case of `addGrantsToInput`: compute the four
grant strings (READ, READ_ACP, WRITE_ACP, FULL_CONTROL) and set each field
only when its string is non-empty.  The `includeWrite` parameter exists in
the Go signature but is not read in this case — `PutObjectInput` has no
WRITE grant field. -/
def addGrantsToPutObjectInput (v : PutObjectInput) (grants : List Grant)
    (_includeWrite : Bool) : Option PutObjectInput :=
  match buildGrantString grants "READ", buildGrantString grants "READ_ACP",
        buildGrantString grants "WRITE_ACP", buildGrantString grants "FULL_CONTROL" with
  | some readGrants, some readAcpGrants, some writeAcpGrants, some fullControlGrants =>
    some { v with
      grantRead := if readGrants ≠ "" then some readGrants else v.grantRead
      grantReadACP := if readAcpGrants ≠ "" then some readAcpGrants else v.grantReadACP
      grantWriteACP := if writeAcpGrants ≠ "" then some writeAcpGrants else v.grantWriteACP
      grantFullControl := if fullControlGrants ≠ "" then some fullControlGrants else v.grantFullControl }
  | _, _, _, _ => none

/-- The `*s3.PutObjectAclInput` case of `addGrantsToInput`: as above, and
when `includeWrite` is set also compute the WRITE grant string and set the
WRITE field when non-empty. -/
def addGrantsToPutObjectAclInput (v : PutObjectAclInput) (grants : List Grant)
    (includeWrite : Bool) : Option PutObjectAclInput :=
  match buildGrantString grants "READ", buildGrantString grants "READ_ACP",
        buildGrantString grants "WRITE_ACP", buildGrantString grants "FULL_CONTROL" with
  | some readGrants, some readAcpGrants, some writeAcpGrants, some fullControlGrants =>
    let v1 := { v with
      grantRead := if readGrants ≠ "" then some readGrants else v.grantRead
      grantReadACP := if readAcpGrants ≠ "" then some readAcpGrants else v.grantReadACP
      grantWriteACP := if writeAcpGrants ≠ "" then some writeAcpGrants else v.grantWriteACP
      grantFullControl := if fullControlGrants ≠ "" then some fullControlGrants else v.grantFullControl }
    if includeWrite then
      match buildGrantString grants "WRITE" with
      | none => none
      | some writeGrants =>
        some { v1 with grantWrite := if writeGrants ≠ "" then some writeGrants else v1.grantWrite }
    else some v1
  | _, _, _, _ => none

/-- Observable events of a run, in execution order: the five store calls of
the `S3Client` interface, temp-file creation, file removal (`os.Remove`, both
the deferred temp-file cleanup and the `autoRemove` cleanup), and the
invocation of the callback. -/
inductive Event where
  | getObjectCall (bucket key : String)
  | getObjectTaggingCall (bucket key : String)
  | getObjectAclCall (bucket key : String)
  | putObjectCall (input : PutObjectInput)
  | putObjectAclCall (input : PutObjectAclInput)
  | createTempFile (name : String)
  | removeFile (name : String)
  | callbackInvoked
  deriving DecidableEq, Repr

/-- Outcome of a run: nil error, non-nil error (with its message), or a
runtime crash (nil-pointer dereference). -/
inductive RunResult where
  | success
  | failure (msg : String)
  | panicked
  deriving DecidableEq, Repr

/-- The store, modelled as an oracle: each operation's outcome is a function
of its request.  This mirrors the `S3Client` interface (minus `context` and
response bodies, which carry no information the package reads beyond what is
modelled). -/
structure S3ClientModel where
  getObject : String → String → Except String GetObjectOutput
  getObjectTagging : String → String → Except String (List Tag)
  getObjectAcl : String → String → Except String (List Grant)
  putObject : PutObjectInput → Except String Unit
  putObjectAcl : PutObjectAclInput → Except String Unit

/-- The local file system, modelled as an oracle: the outcome of
`os.CreateTemp` (the temp file's name on success), of `io.Copy` and `Seek`
on the temp file, and of `os.Open` on a given path. -/
structure LocalFS where
  createTemp : Except String String
  copyResult : Except String Unit
  seekResult : Except String Unit
  openFile : String → Except String Unit

/-- What the callback returns: the path to upload (empty to skip), the
`autoRemove` flag, and the final contents of the (shared, in-place mutable)
metadata map of the `ObjectInfo` it received. -/
structure CallbackOut where
  overwritingFilePath : String
  autoRemove : Bool
  metadata : List (String × Option String)
  deriving DecidableEq, Repr

/-- The callback: a pure function of the `ObjectInfo` and the temp-file
path, failing with an error message or returning a `CallbackOut`. -/
def Callback := ObjectInfo → String → Except String CallbackOut

/-- The `ObjectInfo` built by both orchestrators from the fetched object:
`StorageClass` is wrapped with `aws.String`, `TagCount` with
`aws.Int64(int64(aws.ToInt32 _))`, metadata converted to pointer form. -/
def mkObjectInfo (bucket key : String) (resp : GetObjectOutput) : ObjectInfo :=
  { bucket := bucket
    key := key
    contentType := resp.contentType
    contentLength := resp.contentLength
    etag := resp.etag
    lastModified := resp.lastModified
    metadata := convertMetadataToPointers resp.metadata
    storageClass := some resp.storageClass
    tagCount := some (awsToInt32 resp.tagCount)
    versionId := resp.versionId }

/-- The state of `info.Metadata` after the callback returns: the callback
mutates the shared map in place, so when the original map is nil (`none`)
the callback cannot have changed it; otherwise the map holds whatever the
callback left in it. -/
def postCallbackMetadata (orig : Option (List (String × String)))
    (out : CallbackOut) : Option (List (String × Option String)) :=
  match convertMetadataToPointers orig with
  | none => none
  | some _ => some out.metadata

/-- The Go condition `getResp.TagCount != nil && *getResp.TagCount > 0`. -/
def tagCountPositive : Option Int → Bool
  | some tc => tc > 0
  | none => false

/-- The `PutObjectInput` both orchestrators build before grants (ACL mode)
or with a canned ACL (simple mode): every descriptive attribute comes from
the fetched object, the metadata from the callback-modified map, the tagging
string from the tag fetch. -/
def mkPutObjectInput (bucket key : String) (acl : String) (resp : GetObjectOutput)
    (out : CallbackOut) (tagging : Option String) : PutObjectInput :=
  { bucket := some bucket
    key := some key
    acl := acl
    contentType := resp.contentType
    cacheControl := resp.cacheControl
    contentDisposition := resp.contentDisposition
    contentEncoding := resp.contentEncoding
    contentLanguage := resp.contentLanguage
    websiteRedirectLocation := resp.websiteRedirectLocation
    storageClass := resp.storageClass
    metadata := convertMetadataFromPointers (postCallbackMetadata resp.metadata out)
    tagging := tagging
    grantRead := none
    grantReadACP := none
    grantWriteACP := none
    grantFullControl := none }

/-- The fresh `PutObjectAclInput` of the WRITE-restoration phase. -/
def mkPutObjectAclInput (bucket key : String) : PutObjectAclInput :=
  { bucket := some bucket
    key := some key
    grantRead := none
    grantReadACP := none
    grantWriteACP := none
    grantFullControl := none
    grantWrite := none }

/-- The deferred removals pending at every exit after the callback decided
to write (LIFO order of Go `defer`): the `autoRemove` cleanup of the
replacement file — registered only when the flag is set and the path is
non-empty and differs from the temp file's — followed by the removal of the
temp file itself. -/
def exitEvts (tmpName : String) (cbOut : CallbackOut) : List Event :=
  (if cbOut.autoRemove ∧ cbOut.overwritingFilePath ≠ "" ∧
      cbOut.overwritingFilePath ≠ tmpName
   then [Event.removeFile cbOut.overwritingFilePath] else []) ++
  [Event.removeFile tmpName]

/-- The tail of `OverwriteS3Object` after the tag phase: fetch the ACL, open
the replacement file, build the write request with the non-WRITE grants,
write, and when the original grants contain WRITE issue the separate
permission-update call with all grants including WRITE.  `ev` is the trace
accumulated so far. -/
def aclAfterTags (client : S3ClientModel) (fs : LocalFS) (bucket key : String)
    (getResp : GetObjectOutput) (cbOut : CallbackOut) (tmpName : String)
    (tagging : Option String) (ev : List Event) : RunResult × List Event :=
  let exitEvents := exitEvts tmpName cbOut
  match client.getObjectAcl bucket key with
  | .error e => (RunResult.failure ("failed to get object ACL: " ++ e),
                 ev ++ ([Event.getObjectAclCall bucket key] ++ exitEvents))
  | .ok grants =>
    match fs.openFile cbOut.overwritingFilePath with
    | .error e => (RunResult.failure ("failed to open overwriting file: " ++ e),
                   ev ++ ([Event.getObjectAclCall bucket key] ++ exitEvents))
    | .ok _ =>
      match addGrantsToPutObjectInput
          (mkPutObjectInput bucket key "" getResp cbOut tagging) grants false with
      | none => (RunResult.panicked,
                 ev ++ ([Event.getObjectAclCall bucket key] ++ exitEvents))
      | some putInput =>
        match client.putObject putInput with
        | .error e => (RunResult.failure ("failed to put object: " ++ e),
                       ev ++ ([Event.getObjectAclCall bucket key,
                               Event.putObjectCall putInput] ++ exitEvents))
        | .ok _ =>
          if hasWriteGrant grants then
            match addGrantsToPutObjectAclInput
                (mkPutObjectAclInput bucket key) grants true with
            | none => (RunResult.panicked,
                       ev ++ ([Event.getObjectAclCall bucket key,
                               Event.putObjectCall putInput] ++ exitEvents))
            | some aclInput =>
              match client.putObjectAcl aclInput with
              | .error e => (RunResult.failure ("failed to put object ACL: " ++ e),
                             ev ++ ([Event.getObjectAclCall bucket key,
                                     Event.putObjectCall putInput,
                                     Event.putObjectAclCall aclInput] ++ exitEvents))
              | .ok _ => (RunResult.success,
                          ev ++ ([Event.getObjectAclCall bucket key,
                                  Event.putObjectCall putInput,
                                  Event.putObjectAclCall aclInput] ++ exitEvents))
          else (RunResult.success,
                ev ++ ([Event.getObjectAclCall bucket key,
                        Event.putObjectCall putInput] ++ exitEvents))

/-- The tail of `OverwriteS3ObjectWithAcl` after the tag phase: no ACL
fetch; open the replacement file and write with the canned ACL and no grant
fields. -/
def simpleAfterTags (client : S3ClientModel) (fs : LocalFS) (bucket key acl : String)
    (getResp : GetObjectOutput) (cbOut : CallbackOut) (tmpName : String)
    (tagging : Option String) (ev : List Event) : RunResult × List Event :=
  let exitEvents := exitEvts tmpName cbOut
  match fs.openFile cbOut.overwritingFilePath with
  | .error e => (RunResult.failure ("failed to open overwriting file: " ++ e),
                 ev ++ exitEvents)
  | .ok _ =>
    let putInput := mkPutObjectInput bucket key acl getResp cbOut tagging
    match client.putObject putInput with
    | .error e => (RunResult.failure ("failed to put object: " ++ e),
                   ev ++ ([Event.putObjectCall putInput] ++ exitEvents))
    | .ok _ => (RunResult.success,
                ev ++ ([Event.putObjectCall putInput] ++ exitEvents))

/-- `OverwriteS3Object` (ACL-preserving mode), translated statement by
statement from the Go source; returns the outcome and the event trace.
Deferred cleanups (`os.Remove` of the temp file, registered right after
creation; `os.Remove` of the replacement file, registered after the callback
when `autoRemove` holds and the path differs from the temp file's) run in
LIFO order on every exit path after their registration. -/
def OverwriteS3Object (client : S3ClientModel) (fs : LocalFS)
    (bucket key : String) (callback : Callback) : RunResult × List Event :=
  match client.getObject bucket key with
  | .error e => (.failure ("failed to get object: " ++ e), [Event.getObjectCall bucket key])
  | .ok getResp =>
    match fs.createTemp with
    | .error e => (.failure ("failed to create temp file: " ++ e),
                   [Event.getObjectCall bucket key])
    | .ok tmpName =>
      match fs.copyResult with
      | .error e => (.failure ("failed to copy object content: " ++ e),
                     [Event.getObjectCall bucket key, Event.createTempFile tmpName,
                      Event.removeFile tmpName])
      | .ok _ =>
      match fs.seekResult with
      | .error e => (.failure ("failed to seek temp file: " ++ e),
                     [Event.getObjectCall bucket key, Event.createTempFile tmpName,
                      Event.removeFile tmpName])
      | .ok _ =>
      match callback (mkObjectInfo bucket key getResp) tmpName with
      | .error e => (.failure ("callback error: " ++ e),
                     [Event.getObjectCall bucket key, Event.createTempFile tmpName,
                      Event.callbackInvoked, Event.removeFile tmpName])
      | .ok cbOut =>
      if cbOut.overwritingFilePath = "" then
        (.success, [Event.getObjectCall bucket key, Event.createTempFile tmpName,
                    Event.callbackInvoked, Event.removeFile tmpName])
      else
        if tagCountPositive getResp.tagCount then
          match client.getObjectTagging bucket key with
          | .error e => (.failure ("failed to get object tagging: " ++ e),
                         [Event.getObjectCall bucket key, Event.createTempFile tmpName,
                          Event.callbackInvoked, Event.getObjectTaggingCall bucket key] ++
                         exitEvts tmpName cbOut)
          | .ok tagSet =>
            aclAfterTags client fs bucket key getResp cbOut tmpName
              (if tagSet.length > 0 then some (buildTaggingString tagSet) else none)
              [Event.getObjectCall bucket key, Event.createTempFile tmpName,
               Event.callbackInvoked, Event.getObjectTaggingCall bucket key]
        else
          aclAfterTags client fs bucket key getResp cbOut tmpName none
            [Event.getObjectCall bucket key, Event.createTempFile tmpName,
             Event.callbackInvoked]

/-- `OverwriteS3ObjectWithAcl` (explicit-simple-ACL mode), translated
statement by statement from the Go source: identical to the ACL-preserving
mode up to the tag fetch, then no ACL fetch, a write request carrying the
canned ACL and no grant fields, and no WRITE-restoration phase. -/
def OverwriteS3ObjectWithAcl (client : S3ClientModel) (fs : LocalFS)
    (bucket key acl : String) (callback : Callback) : RunResult × List Event :=
  match client.getObject bucket key with
  | .error e => (.failure ("failed to get object: " ++ e), [Event.getObjectCall bucket key])
  | .ok getResp =>
    match fs.createTemp with
    | .error e => (.failure ("failed to create temp file: " ++ e),
                   [Event.getObjectCall bucket key])
    | .ok tmpName =>
      match fs.copyResult with
      | .error e => (.failure ("failed to copy object content: " ++ e),
                     [Event.getObjectCall bucket key, Event.createTempFile tmpName,
                      Event.removeFile tmpName])
      | .ok _ =>
      match fs.seekResult with
      | .error e => (.failure ("failed to seek temp file: " ++ e),
                     [Event.getObjectCall bucket key, Event.createTempFile tmpName,
                      Event.removeFile tmpName])
      | .ok _ =>
      match callback (mkObjectInfo bucket key getResp) tmpName with
      | .error e => (.failure ("callback error: " ++ e),
                     [Event.getObjectCall bucket key, Event.createTempFile tmpName,
                      Event.callbackInvoked, Event.removeFile tmpName])
      | .ok cbOut =>
      if cbOut.overwritingFilePath = "" then
        (.success, [Event.getObjectCall bucket key, Event.createTempFile tmpName,
                    Event.callbackInvoked, Event.removeFile tmpName])
      else
        if tagCountPositive getResp.tagCount then
          match client.getObjectTagging bucket key with
          | .error e => (.failure ("failed to get object tagging: " ++ e),
                         [Event.getObjectCall bucket key, Event.createTempFile tmpName,
                          Event.callbackInvoked, Event.getObjectTaggingCall bucket key] ++
                         exitEvts tmpName cbOut)
          | .ok tagSet =>
            simpleAfterTags client fs bucket key acl getResp cbOut tmpName
              (if tagSet.length > 0 then some (buildTaggingString tagSet) else none)
              [Event.getObjectCall bucket key, Event.createTempFile tmpName,
               Event.callbackInvoked, Event.getObjectTaggingCall bucket key]
        else
          simpleAfterTags client fs bucket key acl getResp cbOut tmpName none
            [Event.getObjectCall bucket key, Event.createTempFile tmpName,
             Event.callbackInvoked]

/-! ### Shape predicates: exhaustive characterization of the runs -/

/-- The outcome of the tag phase shared by both orchestrators: either the
snapshot's tag count was absent or non-positive and no tag fetch happened,
or it was positive and the fetch succeeded, the tagging string being set
only when the fetched tag set is non-empty. -/
def tagPhase (client : S3ClientModel) (bucket key : String) (resp : GetObjectOutput)
    (tagging : Option String) (evT : List Event) : Prop :=
  (tagCountPositive resp.tagCount = false ∧ tagging = none ∧ evT = []) ∨
  (tagCountPositive resp.tagCount = true ∧ ∃ tagSet,
    client.getObjectTagging bucket key = .ok tagSet ∧
    tagging = (if tagSet.length > 0 then some (buildTaggingString tagSet) else none) ∧
    evT = [Event.getObjectTaggingCall bucket key])

/-- Exhaustive characterization of `aclAfterTags`: one constructor per exit
path of the post-tag tail of the ACL-preserving mode. -/
inductive AclTailShape (client : S3ClientModel) (fs : LocalFS) (bucket key : String)
    (resp : GetObjectOutput) (cbOut : CallbackOut) (tmp : String)
    (tagging : Option String) (ev : List Event) : RunResult × List Event → Prop where
  | aclErr (e : String) :
      client.getObjectAcl bucket key = .error e →
      AclTailShape client fs bucket key resp cbOut tmp tagging ev
        (.failure ("failed to get object ACL: " ++ e),
         ev ++ ([Event.getObjectAclCall bucket key] ++ exitEvts tmp cbOut))
  | openErr (grants : List Grant) (e : String) :
      client.getObjectAcl bucket key = .ok grants →
      fs.openFile cbOut.overwritingFilePath = .error e →
      AclTailShape client fs bucket key resp cbOut tmp tagging ev
        (.failure ("failed to open overwriting file: " ++ e),
         ev ++ ([Event.getObjectAclCall bucket key] ++ exitEvts tmp cbOut))
  | grantsPanic (grants : List Grant) :
      client.getObjectAcl bucket key = .ok grants →
      fs.openFile cbOut.overwritingFilePath = .ok () →
      addGrantsToPutObjectInput (mkPutObjectInput bucket key "" resp cbOut tagging)
        grants false = none →
      AclTailShape client fs bucket key resp cbOut tmp tagging ev
        (.panicked, ev ++ ([Event.getObjectAclCall bucket key] ++ exitEvts tmp cbOut))
  | putErr (grants : List Grant) (pi : PutObjectInput) (e : String) :
      client.getObjectAcl bucket key = .ok grants →
      fs.openFile cbOut.overwritingFilePath = .ok () →
      addGrantsToPutObjectInput (mkPutObjectInput bucket key "" resp cbOut tagging)
        grants false = some pi →
      client.putObject pi = .error e →
      AclTailShape client fs bucket key resp cbOut tmp tagging ev
        (.failure ("failed to put object: " ++ e),
         ev ++ ([Event.getObjectAclCall bucket key, Event.putObjectCall pi] ++
                exitEvts tmp cbOut))
  | putOkNoWrite (grants : List Grant) (pi : PutObjectInput) :
      client.getObjectAcl bucket key = .ok grants →
      fs.openFile cbOut.overwritingFilePath = .ok () →
      addGrantsToPutObjectInput (mkPutObjectInput bucket key "" resp cbOut tagging)
        grants false = some pi →
      client.putObject pi = .ok () →
      hasWriteGrant grants = false →
      AclTailShape client fs bucket key resp cbOut tmp tagging ev
        (.success,
         ev ++ ([Event.getObjectAclCall bucket key, Event.putObjectCall pi] ++
                exitEvts tmp cbOut))
  | writePanic (grants : List Grant) (pi : PutObjectInput) :
      client.getObjectAcl bucket key = .ok grants →
      fs.openFile cbOut.overwritingFilePath = .ok () →
      addGrantsToPutObjectInput (mkPutObjectInput bucket key "" resp cbOut tagging)
        grants false = some pi →
      client.putObject pi = .ok () →
      hasWriteGrant grants = true →
      addGrantsToPutObjectAclInput (mkPutObjectAclInput bucket key) grants true = none →
      AclTailShape client fs bucket key resp cbOut tmp tagging ev
        (.panicked,
         ev ++ ([Event.getObjectAclCall bucket key, Event.putObjectCall pi] ++
                exitEvts tmp cbOut))
  | putAclErr (grants : List Grant) (pi : PutObjectInput) (ai : PutObjectAclInput)
      (e : String) :
      client.getObjectAcl bucket key = .ok grants →
      fs.openFile cbOut.overwritingFilePath = .ok () →
      addGrantsToPutObjectInput (mkPutObjectInput bucket key "" resp cbOut tagging)
        grants false = some pi →
      client.putObject pi = .ok () →
      hasWriteGrant grants = true →
      addGrantsToPutObjectAclInput (mkPutObjectAclInput bucket key) grants true = some ai →
      client.putObjectAcl ai = .error e →
      AclTailShape client fs bucket key resp cbOut tmp tagging ev
        (.failure ("failed to put object ACL: " ++ e),
         ev ++ ([Event.getObjectAclCall bucket key, Event.putObjectCall pi,
                 Event.putObjectAclCall ai] ++ exitEvts tmp cbOut))
  | putAclOk (grants : List Grant) (pi : PutObjectInput) (ai : PutObjectAclInput) :
      client.getObjectAcl bucket key = .ok grants →
      fs.openFile cbOut.overwritingFilePath = .ok () →
      addGrantsToPutObjectInput (mkPutObjectInput bucket key "" resp cbOut tagging)
        grants false = some pi →
      client.putObject pi = .ok () →
      hasWriteGrant grants = true →
      addGrantsToPutObjectAclInput (mkPutObjectAclInput bucket key) grants true = some ai →
      client.putObjectAcl ai = .ok () →
      AclTailShape client fs bucket key resp cbOut tmp tagging ev
        (.success,
         ev ++ ([Event.getObjectAclCall bucket key, Event.putObjectCall pi,
                 Event.putObjectAclCall ai] ++ exitEvts tmp cbOut))

/-- Exhaustive characterization of `simpleAfterTags`: one constructor per
exit path of the post-tag tail of the explicit-simple-ACL mode. -/
inductive SimpleTailShape (client : S3ClientModel) (fs : LocalFS) (bucket key acl : String)
    (resp : GetObjectOutput) (cbOut : CallbackOut) (tmp : String)
    (tagging : Option String) (ev : List Event) : RunResult × List Event → Prop where
  | openErr (e : String) :
      fs.openFile cbOut.overwritingFilePath = .error e →
      SimpleTailShape client fs bucket key acl resp cbOut tmp tagging ev
        (.failure ("failed to open overwriting file: " ++ e), ev ++ exitEvts tmp cbOut)
  | putErr (e : String) :
      fs.openFile cbOut.overwritingFilePath = .ok () →
      client.putObject (mkPutObjectInput bucket key acl resp cbOut tagging) = .error e →
      SimpleTailShape client fs bucket key acl resp cbOut tmp tagging ev
        (.failure ("failed to put object: " ++ e),
         ev ++ ([Event.putObjectCall (mkPutObjectInput bucket key acl resp cbOut tagging)] ++
                exitEvts tmp cbOut))
  | putOk :
      fs.openFile cbOut.overwritingFilePath = .ok () →
      client.putObject (mkPutObjectInput bucket key acl resp cbOut tagging) = .ok () →
      SimpleTailShape client fs bucket key acl resp cbOut tmp tagging ev
        (.success,
         ev ++ ([Event.putObjectCall (mkPutObjectInput bucket key acl resp cbOut tagging)] ++
                exitEvts tmp cbOut))

/-- Exhaustive characterization of `OverwriteS3Object`: one constructor per
exit path up to the tag phase, then deferring to `AclTailShape`. -/
inductive RunShape (client : S3ClientModel) (fs : LocalFS) (bucket key : String)
    (cb : Callback) : RunResult × List Event → Prop where
  | getErr (e : String) :
      client.getObject bucket key = .error e →
      RunShape client fs bucket key cb
        (.failure ("failed to get object: " ++ e), [Event.getObjectCall bucket key])
  | createTempErr (resp : GetObjectOutput) (e : String) :
      client.getObject bucket key = .ok resp →
      fs.createTemp = .error e →
      RunShape client fs bucket key cb
        (.failure ("failed to create temp file: " ++ e), [Event.getObjectCall bucket key])
  | copyErr (resp : GetObjectOutput) (tmp e : String) :
      client.getObject bucket key = .ok resp →
      fs.createTemp = .ok tmp →
      fs.copyResult = .error e →
      RunShape client fs bucket key cb
        (.failure ("failed to copy object content: " ++ e),
         [Event.getObjectCall bucket key, Event.createTempFile tmp, Event.removeFile tmp])
  | seekErr (resp : GetObjectOutput) (tmp e : String) :
      client.getObject bucket key = .ok resp →
      fs.createTemp = .ok tmp →
      fs.copyResult = .ok () →
      fs.seekResult = .error e →
      RunShape client fs bucket key cb
        (.failure ("failed to seek temp file: " ++ e),
         [Event.getObjectCall bucket key, Event.createTempFile tmp, Event.removeFile tmp])
  | callbackFail (resp : GetObjectOutput) (tmp e : String) :
      client.getObject bucket key = .ok resp →
      fs.createTemp = .ok tmp →
      fs.copyResult = .ok () →
      fs.seekResult = .ok () →
      cb (mkObjectInfo bucket key resp) tmp = .error e →
      RunShape client fs bucket key cb
        (.failure ("callback error: " ++ e),
         [Event.getObjectCall bucket key, Event.createTempFile tmp,
          Event.callbackInvoked, Event.removeFile tmp])
  | skip (resp : GetObjectOutput) (tmp : String) (cbOut : CallbackOut) :
      client.getObject bucket key = .ok resp →
      fs.createTemp = .ok tmp →
      fs.copyResult = .ok () →
      fs.seekResult = .ok () →
      cb (mkObjectInfo bucket key resp) tmp = .ok cbOut →
      cbOut.overwritingFilePath = "" →
      RunShape client fs bucket key cb
        (.success,
         [Event.getObjectCall bucket key, Event.createTempFile tmp,
          Event.callbackInvoked, Event.removeFile tmp])
  | tagErr (resp : GetObjectOutput) (tmp : String) (cbOut : CallbackOut) (e : String) :
      client.getObject bucket key = .ok resp →
      fs.createTemp = .ok tmp →
      fs.copyResult = .ok () →
      fs.seekResult = .ok () →
      cb (mkObjectInfo bucket key resp) tmp = .ok cbOut →
      cbOut.overwritingFilePath ≠ "" →
      tagCountPositive resp.tagCount = true →
      client.getObjectTagging bucket key = .error e →
      RunShape client fs bucket key cb
        (.failure ("failed to get object tagging: " ++ e),
         [Event.getObjectCall bucket key, Event.createTempFile tmp,
          Event.callbackInvoked, Event.getObjectTaggingCall bucket key] ++
         exitEvts tmp cbOut)
  | tail (resp : GetObjectOutput) (tmp : String) (cbOut : CallbackOut)
      (tagging : Option String) (evT : List Event) (res : RunResult × List Event) :
      client.getObject bucket key = .ok resp →
      fs.createTemp = .ok tmp →
      fs.copyResult = .ok () →
      fs.seekResult = .ok () →
      cb (mkObjectInfo bucket key resp) tmp = .ok cbOut →
      cbOut.overwritingFilePath ≠ "" →
      tagPhase client bucket key resp tagging evT →
      AclTailShape client fs bucket key resp cbOut tmp tagging
        ([Event.getObjectCall bucket key, Event.createTempFile tmp,
          Event.callbackInvoked] ++ evT) res →
      RunShape client fs bucket key cb res

/-- Exhaustive characterization of `OverwriteS3ObjectWithAcl`: as `RunShape`
but deferring to `SimpleTailShape`. -/
inductive RunShapeWithAcl (client : S3ClientModel) (fs : LocalFS) (bucket key acl : String)
    (cb : Callback) : RunResult × List Event → Prop where
  | getErr (e : String) :
      client.getObject bucket key = .error e →
      RunShapeWithAcl client fs bucket key acl cb
        (.failure ("failed to get object: " ++ e), [Event.getObjectCall bucket key])
  | createTempErr (resp : GetObjectOutput) (e : String) :
      client.getObject bucket key = .ok resp →
      fs.createTemp = .error e →
      RunShapeWithAcl client fs bucket key acl cb
        (.failure ("failed to create temp file: " ++ e), [Event.getObjectCall bucket key])
  | copyErr (resp : GetObjectOutput) (tmp e : String) :
      client.getObject bucket key = .ok resp →
      fs.createTemp = .ok tmp →
      fs.copyResult = .error e →
      RunShapeWithAcl client fs bucket key acl cb
        (.failure ("failed to copy object content: " ++ e),
         [Event.getObjectCall bucket key, Event.createTempFile tmp, Event.removeFile tmp])
  | seekErr (resp : GetObjectOutput) (tmp e : String) :
      client.getObject bucket key = .ok resp →
      fs.createTemp = .ok tmp →
      fs.copyResult = .ok () →
      fs.seekResult = .error e →
      RunShapeWithAcl client fs bucket key acl cb
        (.failure ("failed to seek temp file: " ++ e),
         [Event.getObjectCall bucket key, Event.createTempFile tmp, Event.removeFile tmp])
  | callbackFail (resp : GetObjectOutput) (tmp e : String) :
      client.getObject bucket key = .ok resp →
      fs.createTemp = .ok tmp →
      fs.copyResult = .ok () →
      fs.seekResult = .ok () →
      cb (mkObjectInfo bucket key resp) tmp = .error e →
      RunShapeWithAcl client fs bucket key acl cb
        (.failure ("callback error: " ++ e),
         [Event.getObjectCall bucket key, Event.createTempFile tmp,
          Event.callbackInvoked, Event.removeFile tmp])
  | skip (resp : GetObjectOutput) (tmp : String) (cbOut : CallbackOut) :
      client.getObject bucket key = .ok resp →
      fs.createTemp = .ok tmp →
      fs.copyResult = .ok () →
      fs.seekResult = .ok () →
      cb (mkObjectInfo bucket key resp) tmp = .ok cbOut →
      cbOut.overwritingFilePath = "" →
      RunShapeWithAcl client fs bucket key acl cb
        (.success,
         [Event.getObjectCall bucket key, Event.createTempFile tmp,
          Event.callbackInvoked, Event.removeFile tmp])
  | tagErr (resp : GetObjectOutput) (tmp : String) (cbOut : CallbackOut) (e : String) :
      client.getObject bucket key = .ok resp →
      fs.createTemp = .ok tmp →
      fs.copyResult = .ok () →
      fs.seekResult = .ok () →
      cb (mkObjectInfo bucket key resp) tmp = .ok cbOut →
      cbOut.overwritingFilePath ≠ "" →
      tagCountPositive resp.tagCount = true →
      client.getObjectTagging bucket key = .error e →
      RunShapeWithAcl client fs bucket key acl cb
        (.failure ("failed to get object tagging: " ++ e),
         [Event.getObjectCall bucket key, Event.createTempFile tmp,
          Event.callbackInvoked, Event.getObjectTaggingCall bucket key] ++
         exitEvts tmp cbOut)
  | tail (resp : GetObjectOutput) (tmp : String) (cbOut : CallbackOut)
      (tagging : Option String) (evT : List Event) (res : RunResult × List Event) :
      client.getObject bucket key = .ok resp →
      fs.createTemp = .ok tmp →
      fs.copyResult = .ok () →
      fs.seekResult = .ok () →
      cb (mkObjectInfo bucket key resp) tmp = .ok cbOut →
      cbOut.overwritingFilePath ≠ "" →
      tagPhase client bucket key resp tagging evT →
      SimpleTailShape client fs bucket key acl resp cbOut tmp tagging
        ([Event.getObjectCall bucket key, Event.createTempFile tmp,
          Event.callbackInvoked] ++ evT) res →
      RunShapeWithAcl client fs bucket key acl cb res

/-! ### Helper definitions used in the statements of the claims -/

/-- Send the empty string to `none`: the request fields are set only when
the corresponding grant or tagging string is non-empty. -/
def strToOpt (s : String) : Option String := if s ≠ "" then some s else none

/-- Render a single grantee the way `buildGrantString` does: the first
populated identifier, as `id="..."`, `uri="..."` or `emailaddress="..."`. -/
def renderGrantee (gr : Grantee) : String :=
  match gr.id with
  | some v => "id=\"" ++ v ++ "\""
  | none =>
    match gr.uri with
    | some v => "uri=\"" ++ v ++ "\""
    | none =>
      match gr.emailAddress with
      | some v => "emailaddress=\"" ++ v ++ "\""
      | none => ""

/-- A grantee with exactly one populated identifier — the data model of the
spec (`Grantee is exactly one of canonical-id, group-URI, email-address`). -/
def granteeOneIdentifier (gr : Grantee) : Bool :=
  (gr.id.isSome && gr.uri.isNone && gr.emailAddress.isNone) ||
  (gr.id.isNone && gr.uri.isSome && gr.emailAddress.isNone) ||
  (gr.id.isNone && gr.uri.isNone && gr.emailAddress.isSome)

/-- A grant whose grantee is present and has exactly one identifier. -/
def grantWellFormed (g : Grant) : Bool :=
  match g.grantee with
  | none => false
  | some gr => granteeOneIdentifier gr

/-- All grants of a list are well-formed. -/
def grantsWellFormed (grants : List Grant) : Bool :=
  grants.all grantWellFormed

/-- The specification-level grant string: the renderings of the grants
matching the permission, in input order, comma-joined. -/
def grantStringSpec (grants : List Grant) (permission : String) : String :=
  String.intercalate ","
    ((grants.filter (fun g => g.permission == permission)).map
      (fun g => renderGrantee (g.grantee.getD ⟨none, none, none⟩)))

/-- The write request after `addGrantsToInput` over well-formed grants: the
snapshot-based request with the four non-WRITE grant fields set (omitted
when their serialization is empty). -/
def grantedPutInput (bucket key acl : String) (resp : GetObjectOutput)
    (cbOut : CallbackOut) (tagging : Option String) (grants : List Grant) :
    PutObjectInput :=
  { mkPutObjectInput bucket key acl resp cbOut tagging with
    grantRead := strToOpt (grantStringSpec grants "READ")
    grantReadACP := strToOpt (grantStringSpec grants "READ_ACP")
    grantWriteACP := strToOpt (grantStringSpec grants "WRITE_ACP")
    grantFullControl := strToOpt (grantStringSpec grants "FULL_CONTROL") }

/-- The permission-update request after `addGrantsToInput` with WRITE
included over well-formed grants: all five grant fields set (omitted when
empty). -/
def grantedAclInput (bucket key : String) (grants : List Grant) : PutObjectAclInput :=
  { mkPutObjectAclInput bucket key with
    grantRead := strToOpt (grantStringSpec grants "READ")
    grantReadACP := strToOpt (grantStringSpec grants "READ_ACP")
    grantWriteACP := strToOpt (grantStringSpec grants "WRITE_ACP")
    grantFullControl := strToOpt (grantStringSpec grants "FULL_CONTROL")
    grantWrite := strToOpt (grantStringSpec grants "WRITE") }

/-! ### Concrete instances used by the witnesses -/

/-- A concrete fetched object used by the witnesses. -/
def sampleResp : GetObjectOutput :=
  { contentType := some "text/plain"
    contentLength := some 5
    etag := some "etag1"
    lastModified := some 0
    cacheControl := some "max-age=60"
    contentDisposition := none
    contentEncoding := none
    contentLanguage := none
    websiteRedirectLocation := none
    storageClass := "STANDARD"
    metadata := some [("k1", "v1")]
    tagCount := some 2
    versionId := none }

/-- A variant of `sampleResp` whose tag count is zero. -/
def sampleRespNoTags : GetObjectOutput :=
  { sampleResp with tagCount := some 0 }

/-- A concrete tag set used by the witnesses. -/
def sampleTagSet : List Tag :=
  [⟨some "env", some "test"⟩, ⟨some "purpose", some "e2e-test"⟩]

/-- A concrete grant list with a WRITE grant, as in the spec's
WRITE-restoration example. -/
def sampleGrants : List Grant :=
  [⟨some ⟨some "123456", none, none⟩, "READ"⟩,
   ⟨some ⟨none, some "http://acs.amazonaws.com/groups/global/AuthenticatedUsers", none⟩, "WRITE"⟩]

/-- A concrete grant list without a WRITE grant. -/
def sampleGrantsNoWrite : List Grant :=
  [⟨some ⟨some "123456", none, none⟩, "READ"⟩,
   ⟨some ⟨none, none, some "test@example.com"⟩, "FULL_CONTROL"⟩]

/-- A store oracle whose five operations all succeed with the given data. -/
def mkClient (resp : GetObjectOutput) (tags : List Tag) (grants : List Grant) :
    S3ClientModel :=
  { getObject := fun _ _ => .ok resp
    getObjectTagging := fun _ _ => .ok tags
    getObjectAcl := fun _ _ => .ok grants
    putObject := fun _ => .ok ()
    putObjectAcl := fun _ => .ok () }

/-- A local file system oracle where everything succeeds. -/
def sampleFS : LocalFS :=
  { createTemp := .ok "/tmp/s3-overwrite-1.tmp"
    copyResult := .ok ()
    seekResult := .ok ()
    openFile := fun _ => .ok () }

/-- A callback that skips the write. -/
def cbSkip : Callback := fun info _ => .ok ⟨"", false, info.metadata.getD []⟩

/-- A callback that writes a fresh file and asks for its removal, keeping
the metadata it received. -/
def cbWrite : Callback := fun info _ => .ok ⟨"/tmp/new", true, info.metadata.getD []⟩

/-- A callback that returns the temp file itself (write-in-place). -/
def cbWriteSame : Callback := fun info src => .ok ⟨src, true, info.metadata.getD []⟩

/-- A callback that fails. -/
def cbErr : Callback := fun _ _ => .error "boom"

/-- The write request issued by the witness run against `sampleResp`,
`sampleTagSet` and `sampleGrants` with `cbWrite`. -/
def samplePutTagged : PutObjectInput :=
  { bucket := some "b"
    key := some "k"
    acl := ""
    contentType := some "text/plain"
    cacheControl := some "max-age=60"
    contentDisposition := none
    contentEncoding := none
    contentLanguage := none
    websiteRedirectLocation := none
    storageClass := "STANDARD"
    metadata := some [("k1", "v1")]
    tagging := some "env=test&purpose=e2e-test"
    grantRead := some "id=\"123456\""
    grantReadACP := none
    grantWriteACP := none
    grantFullControl := none }

/-- The same write request when the object reports zero tags. -/
def samplePutNoTags : PutObjectInput := { samplePutTagged with tagging := none }

/-- The permission-update request of the witness run restoring the WRITE
grant of `sampleGrants`. -/
def sampleAclRestore : PutObjectAclInput :=
  { bucket := some "b"
    key := some "k"
    grantRead := some "id=\"123456\""
    grantReadACP := none
    grantWriteACP := none
    grantFullControl := none
    grantWrite := some "uri=\"http://acs.amazonaws.com/groups/global/AuthenticatedUsers\"" }

/-- A store oracle whose object fetch fails. -/
def clientGetErr : S3ClientModel :=
  { mkClient sampleResp sampleTagSet sampleGrants with
      getObject := fun _ _ => .error "no such key" }

/-- A store oracle whose tag fetch fails. -/
def clientTagErr : S3ClientModel :=
  { mkClient sampleResp sampleTagSet sampleGrants with
      getObjectTagging := fun _ _ => .error "tagfail" }

/-- A store oracle whose ACL fetch fails (object reporting zero tags). -/
def clientAclErr : S3ClientModel :=
  { mkClient sampleRespNoTags sampleTagSet sampleGrants with
      getObjectAcl := fun _ _ => .error "aclfail" }

/-! ### Helper lemmas -/

theorem grantWellFormed_of_all {grants : List Grant} (h : grantsWellFormed grants = true) :
    ∀ g ∈ grants, grantWellFormed g = true := by
  simpa [grantsWellFormed, List.all_eq_true] using h

theorem collectGrantees_eq (grants : List Grant) (permission : String)
    (h : ∀ g ∈ grants, g.permission = permission → grantWellFormed g = true) :
    collectGrantees grants permission =
      some ((grants.filter (fun g => g.permission == permission)).map
        (fun g => renderGrantee (g.grantee.getD ⟨none, none, none⟩))) := by
  induction grants with
  | nil => rfl
  | cons g gs ih =>
    have hrest := ih (fun g' h1 h2 => h g' (List.mem_cons_of_mem _ h1) h2)
    by_cases hp : g.permission = permission
    · have hwf := h g (List.mem_cons_self _ _) hp
      have hpb : (g.permission == permission) = true := by simp [hp]
      rcases hge : g.grantee with _ | gr
      · rw [grantWellFormed, hge] at hwf; exact absurd hwf (by simp)
      · rw [grantWellFormed, hge] at hwf
        simp only [collectGrantees, if_pos hp, hge, hrest]
        simp only [List.filter_cons, hpb, if_true, List.map_cons, hge]
        rcases gr with ⟨gid, guri, gemail⟩
        cases gid <;> cases guri <;> cases gemail <;>
          simp_all [granteeOneIdentifier, renderGrantee]
    · have hpb : (g.permission == permission) = false := by simp [hp]
      simp [collectGrantees, if_neg hp, hrest, List.filter_cons, hpb]

theorem buildGrantString_eq_spec (grants : List Grant) (permission : String)
    (h : ∀ g ∈ grants, g.permission = permission → grantWellFormed g = true) :
    buildGrantString grants permission = some (grantStringSpec grants permission) := by
  rw [buildGrantString, collectGrantees_eq grants permission h]
  simp only [grantStringSpec]
  rcases hl : (grants.filter (fun g => g.permission == permission)).map
      (fun g => renderGrantee (g.grantee.getD ⟨none, none, none⟩)) with _ | ⟨a, as⟩
  · rw [hl]; simp [String.intercalate]
  · rw [hl]; simp

theorem buildGrantString_eq_spec_of_wf (grants : List Grant) (permission : String)
    (h : grantsWellFormed grants = true) :
    buildGrantString grants permission = some (grantStringSpec grants permission) :=
  buildGrantString_eq_spec grants permission
    (fun g hg _ => grantWellFormed_of_all h g hg)

theorem addGrantsToPutObjectInput_eq (v : PutObjectInput) (grants : List Grant)
    (includeWrite : Bool) (h : grantsWellFormed grants = true) :
    addGrantsToPutObjectInput v grants includeWrite =
      some { v with
        grantRead := if grantStringSpec grants "READ" ≠ "" then
          some (grantStringSpec grants "READ") else v.grantRead
        grantReadACP := if grantStringSpec grants "READ_ACP" ≠ "" then
          some (grantStringSpec grants "READ_ACP") else v.grantReadACP
        grantWriteACP := if grantStringSpec grants "WRITE_ACP" ≠ "" then
          some (grantStringSpec grants "WRITE_ACP") else v.grantWriteACP
        grantFullControl := if grantStringSpec grants "FULL_CONTROL" ≠ "" then
          some (grantStringSpec grants "FULL_CONTROL") else v.grantFullControl } := by
  rw [addGrantsToPutObjectInput,
    buildGrantString_eq_spec_of_wf grants "READ" h,
    buildGrantString_eq_spec_of_wf grants "READ_ACP" h,
    buildGrantString_eq_spec_of_wf grants "WRITE_ACP" h,
    buildGrantString_eq_spec_of_wf grants "FULL_CONTROL" h]

theorem addGrantsToPutObjectAclInput_eq (v : PutObjectAclInput) (grants : List Grant)
    (h : grantsWellFormed grants = true) :
    addGrantsToPutObjectAclInput v grants true =
      some { v with
        grantRead := if grantStringSpec grants "READ" ≠ "" then
          some (grantStringSpec grants "READ") else v.grantRead
        grantReadACP := if grantStringSpec grants "READ_ACP" ≠ "" then
          some (grantStringSpec grants "READ_ACP") else v.grantReadACP
        grantWriteACP := if grantStringSpec grants "WRITE_ACP" ≠ "" then
          some (grantStringSpec grants "WRITE_ACP") else v.grantWriteACP
        grantFullControl := if grantStringSpec grants "FULL_CONTROL" ≠ "" then
          some (grantStringSpec grants "FULL_CONTROL") else v.grantFullControl
        grantWrite := if grantStringSpec grants "WRITE" ≠ "" then
          some (grantStringSpec grants "WRITE") else v.grantWrite } := by
  rw [addGrantsToPutObjectAclInput,
    buildGrantString_eq_spec_of_wf grants "READ" h,
    buildGrantString_eq_spec_of_wf grants "READ_ACP" h,
    buildGrantString_eq_spec_of_wf grants "WRITE_ACP" h,
    buildGrantString_eq_spec_of_wf grants "FULL_CONTROL" h,
    buildGrantString_eq_spec_of_wf grants "WRITE" h]
  rfl

theorem addGrantsToPutObjectInput_mk (bucket key acl : String) (resp : GetObjectOutput)
    (cbOut : CallbackOut) (tagging : Option String) (grants : List Grant) (iw : Bool)
    (h : grantsWellFormed grants = true) :
    addGrantsToPutObjectInput (mkPutObjectInput bucket key acl resp cbOut tagging)
      grants iw = some (grantedPutInput bucket key acl resp cbOut tagging grants) := by
  rw [addGrantsToPutObjectInput_eq _ grants iw h]
  rfl

theorem addGrantsToPutObjectAclInput_mk (bucket key : String) (grants : List Grant)
    (h : grantsWellFormed grants = true) :
    addGrantsToPutObjectAclInput (mkPutObjectAclInput bucket key) grants true =
      some (grantedAclInput bucket key grants) := by
  rw [addGrantsToPutObjectAclInput_eq _ grants h]
  rfl

theorem aclAfterTags_shape (client : S3ClientModel) (fs : LocalFS) (bucket key : String)
    (resp : GetObjectOutput) (cbOut : CallbackOut) (tmp : String)
    (tagging : Option String) (ev : List Event) :
    AclTailShape client fs bucket key resp cbOut tmp tagging ev
      (aclAfterTags client fs bucket key resp cbOut tmp tagging ev) := by
  unfold aclAfterTags
  cases hacl : client.getObjectAcl bucket key with
  | error e => exact .aclErr e hacl
  | ok grants =>
    dsimp only
    cases hopen : fs.openFile cbOut.overwritingFilePath with
    | error e => exact .openErr grants e hacl hopen
    | ok u =>
      dsimp only
      cases hgr : addGrantsToPutObjectInput
          (mkPutObjectInput bucket key "" resp cbOut tagging) grants false with
      | none => exact .grantsPanic grants hacl hopen hgr
      | some pi =>
        dsimp only
        cases hput : client.putObject pi with
        | error e => exact .putErr grants pi e hacl hopen hgr hput
        | ok u2 =>
          dsimp only
          cases hwg : hasWriteGrant grants with
          | false =>
            rw [if_neg (by simp [hwg])]
            exact .putOkNoWrite grants pi hacl hopen hgr hput hwg
          | true =>
            rw [if_pos (by simp [hwg])]
            cases hga : addGrantsToPutObjectAclInput
                (mkPutObjectAclInput bucket key) grants true with
            | none => exact .writePanic grants pi hacl hopen hgr hput hwg hga
            | some ai =>
              dsimp only
              cases hpa : client.putObjectAcl ai with
              | error e => exact .putAclErr grants pi ai e hacl hopen hgr hput hwg hga hpa
              | ok u3 => exact .putAclOk grants pi ai hacl hopen hgr hput hwg hga hpa

theorem simpleAfterTags_shape (client : S3ClientModel) (fs : LocalFS)
    (bucket key acl : String) (resp : GetObjectOutput) (cbOut : CallbackOut)
    (tmp : String) (tagging : Option String) (ev : List Event) :
    SimpleTailShape client fs bucket key acl resp cbOut tmp tagging ev
      (simpleAfterTags client fs bucket key acl resp cbOut tmp tagging ev) := by
  unfold simpleAfterTags
  cases hopen : fs.openFile cbOut.overwritingFilePath with
  | error e => exact .openErr e hopen
  | ok u =>
    dsimp only
    cases hput : client.putObject (mkPutObjectInput bucket key acl resp cbOut tagging) with
    | error e => exact .putErr e hopen hput
    | ok u2 => exact .putOk hopen hput

theorem OverwriteS3Object_shape (client : S3ClientModel) (fs : LocalFS)
    (bucket key : String) (cb : Callback) :
    RunShape client fs bucket key cb (OverwriteS3Object client fs bucket key cb) := by
  unfold OverwriteS3Object
  cases hget : client.getObject bucket key with
  | error e => exact .getErr e hget
  | ok resp =>
    dsimp only
    cases htmp : fs.createTemp with
    | error e => exact .createTempErr resp e hget htmp
    | ok tmp =>
      dsimp only
      cases hcopy : fs.copyResult with
      | error e => exact .copyErr resp tmp e hget htmp hcopy
      | ok u =>
        dsimp only
        cases hseek : fs.seekResult with
        | error e => exact .seekErr resp tmp e hget htmp hcopy hseek
        | ok u2 =>
          dsimp only
          cases hcb : cb (mkObjectInfo bucket key resp) tmp with
          | error e => exact .callbackFail resp tmp e hget htmp hcopy hseek hcb
          | ok cbOut =>
            dsimp only
            by_cases hskip : cbOut.overwritingFilePath = ""
            · rw [if_pos hskip]
              exact .skip resp tmp cbOut hget htmp hcopy hseek hcb hskip
            · rw [if_neg hskip]
              cases htc : tagCountPositive resp.tagCount with
              | false =>
                rw [if_neg (by simp [htc])]
                exact .tail resp tmp cbOut none [] _ hget htmp hcopy hseek hcb hskip
                  (Or.inl ⟨htc, rfl, rfl⟩)
                  (aclAfterTags_shape client fs bucket key resp cbOut tmp none _)
              | true =>
                rw [if_pos (by simp [htc])]
                cases htag : client.getObjectTagging bucket key with
                | error e => exact .tagErr resp tmp cbOut e hget htmp hcopy hseek hcb hskip htc htag
                | ok ts =>
                  exact .tail resp tmp cbOut _ [Event.getObjectTaggingCall bucket key] _
                    hget htmp hcopy hseek hcb hskip
                    (Or.inr ⟨htc, ts, htag, rfl, rfl⟩)
                    (aclAfterTags_shape client fs bucket key resp cbOut tmp _ _)

theorem OverwriteS3ObjectWithAcl_shape (client : S3ClientModel) (fs : LocalFS)
    (bucket key acl : String) (cb : Callback) :
    RunShapeWithAcl client fs bucket key acl cb
      (OverwriteS3ObjectWithAcl client fs bucket key acl cb) := by
  unfold OverwriteS3ObjectWithAcl
  cases hget : client.getObject bucket key with
  | error e => exact .getErr e hget
  | ok resp =>
    dsimp only
    cases htmp : fs.createTemp with
    | error e => exact .createTempErr resp e hget htmp
    | ok tmp =>
      dsimp only
      cases hcopy : fs.copyResult with
      | error e => exact .copyErr resp tmp e hget htmp hcopy
      | ok u =>
        dsimp only
        cases hseek : fs.seekResult with
        | error e => exact .seekErr resp tmp e hget htmp hcopy hseek
        | ok u2 =>
          dsimp only
          cases hcb : cb (mkObjectInfo bucket key resp) tmp with
          | error e => exact .callbackFail resp tmp e hget htmp hcopy hseek hcb
          | ok cbOut =>
            dsimp only
            by_cases hskip : cbOut.overwritingFilePath = ""
            · rw [if_pos hskip]
              exact .skip resp tmp cbOut hget htmp hcopy hseek hcb hskip
            · rw [if_neg hskip]
              cases htc : tagCountPositive resp.tagCount with
              | false =>
                rw [if_neg (by simp [htc])]
                exact .tail resp tmp cbOut none [] _ hget htmp hcopy hseek hcb hskip
                  (Or.inl ⟨htc, rfl, rfl⟩)
                  (simpleAfterTags_shape client fs bucket key acl resp cbOut tmp none _)
              | true =>
                rw [if_pos (by simp [htc])]
                cases htag : client.getObjectTagging bucket key with
                | error e => exact .tagErr resp tmp cbOut e hget htmp hcopy hseek hcb hskip htc htag
                | ok ts =>
                  exact .tail resp tmp cbOut _ [Event.getObjectTaggingCall bucket key] _
                    hget htmp hcopy hseek hcb hskip
                    (Or.inr ⟨htc, ts, htag, rfl, rfl⟩)
                    (simpleAfterTags_shape client fs bucket key acl resp cbOut tmp _ _)

/-- Membership in the deferred-removal events: only the `autoRemove` removal
(under its three conditions) and the temp-file removal occur there. -/
theorem mem_exitEvts_iff (tmp : String) (cbo : CallbackOut) (e : Event) :
    e ∈ exitEvts tmp cbo ↔
      ((cbo.autoRemove = true ∧ cbo.overwritingFilePath ≠ "" ∧
          cbo.overwritingFilePath ≠ tmp) ∧
        e = Event.removeFile cbo.overwritingFilePath) ∨
      e = Event.removeFile tmp := by
  unfold exitEvts
  split <;> rename_i hc <;> simp_all

/-- `addGrantsToInput` on a write request only touches the four grant
fields; every other field of the request is unchanged. -/
theorem addGrantsToPutObjectInput_fields (v : PutObjectInput) (grants : List Grant)
    (iw : Bool) (pi : PutObjectInput)
    (h : addGrantsToPutObjectInput v grants iw = some pi) :
    pi.bucket = v.bucket ∧ pi.key = v.key ∧ pi.acl = v.acl ∧
    pi.contentType = v.contentType ∧ pi.cacheControl = v.cacheControl ∧
    pi.contentDisposition = v.contentDisposition ∧
    pi.contentEncoding = v.contentEncoding ∧
    pi.contentLanguage = v.contentLanguage ∧
    pi.websiteRedirectLocation = v.websiteRedirectLocation ∧
    pi.storageClass = v.storageClass ∧ pi.metadata = v.metadata ∧
    pi.tagging = v.tagging := by
  unfold addGrantsToPutObjectInput at h
  split at h
  · injection h with h
    subst h
    exact ⟨rfl, rfl, rfl, rfl, rfl, rfl, rfl, rfl, rfl, rfl, rfl, rfl⟩
  · exact absurd h (by simp)

/-- The tagging loop, from index `k > 0` on, is `String.intercalate`'s
accumulator loop with separator `&`. -/
theorem enumFrom_foldl_go (ts : List Tag) : ∀ (k : Nat) (acc : String), 0 < k →
    (List.enumFrom k ts).foldl
      (fun result p => result ++ (if p.1 > 0 then "&" else "") ++ tagPair p.2) acc =
    String.intercalate.go acc "&" (ts.map tagPair) := by
  induction ts with
  | nil => intro k acc _; rfl
  | cons t ts ih =>
    intro k acc hk
    show (List.enumFrom (k + 1) ts).foldl _
        (acc ++ (if k > 0 then "&" else "") ++ tagPair t) = _
    rw [if_pos hk]
    exact ih (k + 1) (acc ++ "&" ++ tagPair t) (Nat.succ_pos k)

/-- `buildTaggingString` joins the escaped `key=value` pairs with `&` in
input order. -/
theorem buildTaggingString_eq_intercalate (tags : List Tag) :
    buildTaggingString tags = String.intercalate "&" (tags.map tagPair) := by
  cases tags with
  | nil => rfl
  | cons t ts =>
    show (List.enum (t :: ts)).foldl _ "" = String.intercalate.go (tagPair t) "&" (ts.map tagPair)
    show (List.enumFrom 1 ts).foldl _ ("" ++ (if 0 > 0 then "&" else "") ++ tagPair t) = _
    rw [if_neg (by simp)]
    rw [enumFrom_foldl_go ts 1 ("" ++ "" ++ tagPair t) Nat.one_pos]
    congr 1

/-- Every event of an `aclAfterTags` run is either an accumulated event, the
ACL-fetch call, a write call whose input came from `addGrantsToInput`, a
permission-update call (only when the grants contain WRITE) whose input came
from `addGrantsToInput` with WRITE included, or a deferred removal. -/
theorem AclTailShape_mem (client : S3ClientModel) (fs : LocalFS) (bucket key : String)
    (resp : GetObjectOutput) (cbOut : CallbackOut) (tmp : String)
    (tagging : Option String) (ev : List Event) (res : RunResult × List Event)
    (h : AclTailShape client fs bucket key resp cbOut tmp tagging ev res) :
    ∀ e, e ∈ res.2 → e ∈ ev ∨ e = Event.getObjectAclCall bucket key ∨
      (∃ grants pi, client.getObjectAcl bucket key = .ok grants ∧
        addGrantsToPutObjectInput (mkPutObjectInput bucket key "" resp cbOut tagging)
          grants false = some pi ∧ e = Event.putObjectCall pi) ∨
      (∃ grants ai, client.getObjectAcl bucket key = .ok grants ∧
        hasWriteGrant grants = true ∧
        addGrantsToPutObjectAclInput (mkPutObjectAclInput bucket key) grants true =
          some ai ∧ e = Event.putObjectAclCall ai) ∨
      e ∈ exitEvts tmp cbOut := by
  cases h <;> intro e he <;>
    simp only [List.mem_append, List.mem_cons, List.not_mem_nil, or_false] at he <;>
    aesop

/-- Every deferred-removal event belongs to the trace of an `aclAfterTags`
run. -/
theorem AclTailShape_exit_mem (client : S3ClientModel) (fs : LocalFS) (bucket key : String)
    (resp : GetObjectOutput) (cbOut : CallbackOut) (tmp : String)
    (tagging : Option String) (ev : List Event) (res : RunResult × List Event)
    (h : AclTailShape client fs bucket key resp cbOut tmp tagging ev res) :
    ∀ e ∈ exitEvts tmp cbOut, e ∈ res.2 := by
  cases h <;> intro e he <;> simp [he]

/-- Every event of a `simpleAfterTags` run is either an accumulated event,
the write call with the canned-ACL request, or a deferred removal. -/
theorem SimpleTailShape_mem (client : S3ClientModel) (fs : LocalFS)
    (bucket key acl : String) (resp : GetObjectOutput) (cbOut : CallbackOut)
    (tmp : String) (tagging : Option String) (ev : List Event)
    (res : RunResult × List Event)
    (h : SimpleTailShape client fs bucket key acl resp cbOut tmp tagging ev res) :
    ∀ e, e ∈ res.2 → e ∈ ev ∨
      e = Event.putObjectCall (mkPutObjectInput bucket key acl resp cbOut tagging) ∨
      e ∈ exitEvts tmp cbOut := by
  cases h <;> intro e he <;>
    simp only [List.mem_append, List.mem_cons, List.not_mem_nil, or_false] at he <;>
    aesop

/-- Every deferred-removal event belongs to the trace of a `simpleAfterTags`
run. -/
theorem SimpleTailShape_exit_mem (client : S3ClientModel) (fs : LocalFS)
    (bucket key acl : String) (resp : GetObjectOutput) (cbOut : CallbackOut)
    (tmp : String) (tagging : Option String) (ev : List Event)
    (res : RunResult × List Event)
    (h : SimpleTailShape client fs bucket key acl resp cbOut tmp tagging ev res) :
    ∀ e ∈ exitEvts tmp cbOut, e ∈ res.2 := by
  cases h <;> intro e he <;> simp [he]

/-! ### Claims -/

/-- C10: converting a metadata map to pointer form and back is the identity,
and entries whose value pointer is nil are dropped by the conversion back —
setting a key's value to nil in the callback removes that key from the
write. -/
theorem metadata_pointer_round_trip :
    (∀ md : Option (List (String × String)),
      convertMetadataFromPointers (convertMetadataToPointers md) = md) ∧
    (∀ (m : List (String × Option String)) (k v : String),
      ((k, v) ∈ (convertMetadataFromPointers (some m)).getD []) ↔ (k, some v) ∈ m) := by
  constructor
  · intro md
    cases md with
    | none => rfl
    | some m =>
      simp only [convertMetadataToPointers, convertMetadataFromPointers, Option.some.injEq]
      induction m with
      | nil => rfl
      | cons kv rest ih => simpa using ih
  · intro m k v
    simp only [convertMetadataFromPointers, Option.getD_some]
    rw [List.mem_filterMap]
    constructor
    · rintro ⟨⟨a1, a2⟩, hmem, hf⟩
      cases a2 with
      | none => exact absurd hf (by simp)
      | some w =>
        simp only [Option.some.injEq, Prod.mk.injEq] at hf
        obtain ⟨h1, h2⟩ := hf
        subst h1; subst h2
        exact hmem
    · intro hmem
      exact ⟨(k, some v), hmem, rfl⟩

/-- Witness for C10 at a concrete map. -/
theorem metadata_pointer_round_trip_witness :
    convertMetadataFromPointers (convertMetadataToPointers (some [("a", "1")])) =
      some [("a", "1")] ∧
    ((("a", "1") ∈ (convertMetadataFromPointers
        (some [("a", some "1"), ("b", none)])).getD []) ↔
      ("a", some "1") ∈ [("a", some "1"), ("b", (none : Option String))]) :=
  ⟨metadata_pointer_round_trip.1 _, metadata_pointer_round_trip.2 _ _ _⟩

/-- C9: `buildGrantString` dereferences each matching grant's grantee, so it
is total (returns a defined string) whenever every matching grant carries a
non-nil grantee; a matching grant with an absent grantee reaches the
failure (crash) branch. -/
theorem grant_string_total_iff_grantees_present :
    (∀ (grants : List Grant) (permission : String),
      (∀ g ∈ grants, g.permission = permission → g.grantee.isSome) →
      (buildGrantString grants permission).isSome) ∧
    buildGrantString [⟨none, "READ"⟩] "READ" = none := by
  constructor
  · intro grants permission h
    have hc : (collectGrantees grants permission).isSome := by
      induction grants with
      | nil => simp [collectGrantees]
      | cons g gs ih =>
        have hrest := ih (fun g' h1 h2 => h g' (List.mem_cons_of_mem _ h1) h2)
        by_cases hp : g.permission = permission
        · have hg := h g (List.mem_cons_self _ _) hp
          rcases hge : g.grantee with _ | gr
          · rw [hge] at hg; exact absurd hg (by simp)
          · rcases hcg : collectGrantees gs permission with _ | rest
            · rw [hcg] at hrest; exact absurd hrest (by simp)
            · rcases gr with ⟨gid, guri, gemail⟩
              cases gid <;> cases guri <;> cases gemail <;>
                simp_all [collectGrantees]
        · simpa [collectGrantees, if_neg hp] using hrest
    rcases hcg : collectGrantees grants permission with _ | gs
    · rw [hcg] at hc; exact absurd hc (by simp)
    · simp [buildGrantString, hcg]
  · rfl

/-- Witness for C9 at a concrete grant list. -/
theorem grant_string_total_iff_grantees_present_witness :
    (buildGrantString sampleGrants "READ").isSome = true :=
  grant_string_total_iff_grantees_present.1 sampleGrants "READ" (by decide)

/-- C3: for every well-formed grant list and permission, the serializer
renders each matching grant by its populated identifier, comma-joins them in
input order, excludes non-matching grants, yields the empty string when none
match, and `addGrantsToInput` then omits any field whose string is empty
(leaves it unset) on both request kinds. -/
theorem grant_serializer_renders_in_order (grants : List Grant)
    (h : grantsWellFormed grants = true) :
    (∀ permission,
      buildGrantString grants permission = some (grantStringSpec grants permission)) ∧
    (∀ bucket key acl resp out tagging includeWrite,
      addGrantsToPutObjectInput (mkPutObjectInput bucket key acl resp out tagging)
          grants includeWrite =
        some { mkPutObjectInput bucket key acl resp out tagging with
                 grantRead := strToOpt (grantStringSpec grants "READ")
                 grantReadACP := strToOpt (grantStringSpec grants "READ_ACP")
                 grantWriteACP := strToOpt (grantStringSpec grants "WRITE_ACP")
                 grantFullControl := strToOpt (grantStringSpec grants "FULL_CONTROL") }) ∧
    (∀ bucket key,
      addGrantsToPutObjectAclInput (mkPutObjectAclInput bucket key) grants true =
        some { mkPutObjectAclInput bucket key with
                 grantRead := strToOpt (grantStringSpec grants "READ")
                 grantReadACP := strToOpt (grantStringSpec grants "READ_ACP")
                 grantWriteACP := strToOpt (grantStringSpec grants "WRITE_ACP")
                 grantFullControl := strToOpt (grantStringSpec grants "FULL_CONTROL")
                 grantWrite := strToOpt (grantStringSpec grants "WRITE") }) := by
  refine ⟨fun permission => buildGrantString_eq_spec_of_wf grants permission h, ?_, ?_⟩
  · intro bucket key acl resp out tagging includeWrite
    rw [addGrantsToPutObjectInput_eq _ grants includeWrite h]
    simp [mkPutObjectInput, strToOpt]
  · intro bucket key
    rw [addGrantsToPutObjectAclInput_eq _ grants h]
    simp [mkPutObjectAclInput, strToOpt]

/-- Witness for C3 at the spec's grant-serializer example. -/
theorem grant_serializer_renders_in_order_witness :
    grantsWellFormed sampleGrantsNoWrite = true ∧
    buildGrantString sampleGrantsNoWrite "READ" =
      some (grantStringSpec sampleGrantsNoWrite "READ") ∧
    grantStringSpec sampleGrantsNoWrite "READ" = "id=\"123456\"" ∧
    grantStringSpec sampleGrantsNoWrite "WRITE" = "" :=
  ⟨by decide,
   (grant_serializer_renders_in_order sampleGrantsNoWrite (by decide)).1 "READ",
   by decide, by decide⟩

/-- C2: if the callback returns the empty replacement path with no error,
both operations return success having performed only the object fetch: the
full trace shows no tag fetch, no ACL fetch, no write-object call and no
permission-update call. -/
theorem skip_is_noop (client : S3ClientModel) (fs : LocalFS) (bucket key acl : String)
    (callback : Callback) (resp : GetObjectOutput) (tmp : String) (out : CallbackOut)
    (hGet : client.getObject bucket key = .ok resp)
    (hTmp : fs.createTemp = .ok tmp)
    (hCopy : fs.copyResult = .ok ())
    (hSeek : fs.seekResult = .ok ())
    (hCb : callback (mkObjectInfo bucket key resp) tmp = .ok out)
    (hSkip : out.overwritingFilePath = "") :
    OverwriteS3Object client fs bucket key callback =
      (.success, [Event.getObjectCall bucket key, Event.createTempFile tmp,
                  Event.callbackInvoked, Event.removeFile tmp]) ∧
    OverwriteS3ObjectWithAcl client fs bucket key acl callback =
      (.success, [Event.getObjectCall bucket key, Event.createTempFile tmp,
                  Event.callbackInvoked, Event.removeFile tmp]) := by
  constructor
  · unfold OverwriteS3Object
    rw [hGet, hTmp, hCopy, hSeek]; dsimp only; rw [hCb]
    dsimp only
    rw [if_pos hSkip]
  · unfold OverwriteS3ObjectWithAcl
    rw [hGet, hTmp, hCopy, hSeek]; dsimp only; rw [hCb]
    dsimp only
    rw [if_pos hSkip]

/-- Witness for C2 at a concrete store, file system and skipping callback. -/
theorem skip_is_noop_witness :
    OverwriteS3Object (mkClient sampleResp sampleTagSet sampleGrants) sampleFS
        "b" "k" cbSkip =
      (.success, [Event.getObjectCall "b" "k",
                  Event.createTempFile "/tmp/s3-overwrite-1.tmp",
                  Event.callbackInvoked, Event.removeFile "/tmp/s3-overwrite-1.tmp"]) ∧
    OverwriteS3ObjectWithAcl (mkClient sampleResp sampleTagSet sampleGrants) sampleFS
        "b" "k" "private" cbSkip =
      (.success, [Event.getObjectCall "b" "k",
                  Event.createTempFile "/tmp/s3-overwrite-1.tmp",
                  Event.callbackInvoked, Event.removeFile "/tmp/s3-overwrite-1.tmp"]) :=
  skip_is_noop (mkClient sampleResp sampleTagSet sampleGrants) sampleFS "b" "k" "private"
    cbSkip sampleResp "/tmp/s3-overwrite-1.tmp" ⟨"", false, [("k1", some "v1")]⟩
    rfl rfl rfl rfl rfl rfl

/-- C5: an object-fetch failure returns the fetch error immediately with the
callback never invoked; a callback failure returns the wrapped callback
error with no write-object call; a tag-fetch or ACL-fetch failure returns
the fetch error with no write-object call — each shown by the full trace. -/
theorem fetch_and_callback_failures_abort (client : S3ClientModel) (fs : LocalFS)
    (bucket key acl : String) (callback : Callback) :
    (∀ e, client.getObject bucket key = .error e →
      OverwriteS3Object client fs bucket key callback =
        (.failure ("failed to get object: " ++ e), [Event.getObjectCall bucket key]) ∧
      OverwriteS3ObjectWithAcl client fs bucket key acl callback =
        (.failure ("failed to get object: " ++ e), [Event.getObjectCall bucket key])) ∧
    (∀ resp tmp e, client.getObject bucket key = .ok resp → fs.createTemp = .ok tmp →
      fs.copyResult = .ok () → fs.seekResult = .ok () →
      callback (mkObjectInfo bucket key resp) tmp = .error e →
      OverwriteS3Object client fs bucket key callback =
        (.failure ("callback error: " ++ e),
         [Event.getObjectCall bucket key, Event.createTempFile tmp,
          Event.callbackInvoked, Event.removeFile tmp]) ∧
      OverwriteS3ObjectWithAcl client fs bucket key acl callback =
        (.failure ("callback error: " ++ e),
         [Event.getObjectCall bucket key, Event.createTempFile tmp,
          Event.callbackInvoked, Event.removeFile tmp])) ∧
    (∀ resp tmp out e, client.getObject bucket key = .ok resp → fs.createTemp = .ok tmp →
      fs.copyResult = .ok () → fs.seekResult = .ok () →
      callback (mkObjectInfo bucket key resp) tmp = .ok out →
      out.overwritingFilePath ≠ "" →
      tagCountPositive resp.tagCount = true →
      client.getObjectTagging bucket key = .error e →
      OverwriteS3Object client fs bucket key callback =
        (.failure ("failed to get object tagging: " ++ e),
         [Event.getObjectCall bucket key, Event.createTempFile tmp,
          Event.callbackInvoked, Event.getObjectTaggingCall bucket key] ++
         exitEvts tmp out) ∧
      OverwriteS3ObjectWithAcl client fs bucket key acl callback =
        (.failure ("failed to get object tagging: " ++ e),
         [Event.getObjectCall bucket key, Event.createTempFile tmp,
          Event.callbackInvoked, Event.getObjectTaggingCall bucket key] ++
         exitEvts tmp out)) ∧
    (∀ resp tmp out tagging evT e,
      client.getObject bucket key = .ok resp → fs.createTemp = .ok tmp →
      fs.copyResult = .ok () → fs.seekResult = .ok () →
      callback (mkObjectInfo bucket key resp) tmp = .ok out →
      out.overwritingFilePath ≠ "" →
      tagPhase client bucket key resp tagging evT →
      client.getObjectAcl bucket key = .error e →
      OverwriteS3Object client fs bucket key callback =
        (.failure ("failed to get object ACL: " ++ e),
         ([Event.getObjectCall bucket key, Event.createTempFile tmp,
           Event.callbackInvoked] ++ evT) ++
         ([Event.getObjectAclCall bucket key] ++ exitEvts tmp out))) := by
  refine ⟨?_, ?_, ?_, ?_⟩
  · intro e hGet
    constructor
    · unfold OverwriteS3Object; rw [hGet]
    · unfold OverwriteS3ObjectWithAcl; rw [hGet]
  · intro resp tmp e hGet hTmp hCopy hSeek hCb
    constructor
    · unfold OverwriteS3Object
      rw [hGet, hTmp, hCopy, hSeek]; dsimp only; rw [hCb]
    · unfold OverwriteS3ObjectWithAcl
      rw [hGet, hTmp, hCopy, hSeek]; dsimp only; rw [hCb]
  · intro resp tmp out e hGet hTmp hCopy hSeek hCb hW htc htag
    constructor
    · unfold OverwriteS3Object
      rw [hGet, hTmp, hCopy, hSeek]; dsimp only; rw [hCb]
      dsimp only
      rw [if_neg hW, if_pos htc, htag]
    · unfold OverwriteS3ObjectWithAcl
      rw [hGet, hTmp, hCopy, hSeek]; dsimp only; rw [hCb]
      dsimp only
      rw [if_neg hW, if_pos htc, htag]
  · intro resp tmp out tagging evT e hGet hTmp hCopy hSeek hCb hW hTag hAcl
    unfold OverwriteS3Object
    rw [hGet, hTmp, hCopy, hSeek]; dsimp only; rw [hCb]
    dsimp only
    rw [if_neg hW]
    rcases hTag with ⟨hneg, htagging, hevT⟩ | ⟨hpos, ts, hts, htagging, hevT⟩
    · subst hevT
      rw [if_neg (by simp [hneg])]
      unfold aclAfterTags
      rw [hAcl]
      simp
    · subst hevT
      rw [if_pos hpos, hts]
      dsimp only
      unfold aclAfterTags
      rw [hAcl]
      simp

/-- Witness for C5: the four failure scenarios at concrete stores. -/
theorem fetch_and_callback_failures_abort_witness :
    OverwriteS3Object clientGetErr sampleFS "b" "k" cbWrite =
      (.failure ("failed to get object: " ++ "no such key"),
       [Event.getObjectCall "b" "k"]) ∧
    OverwriteS3Object (mkClient sampleResp sampleTagSet sampleGrants) sampleFS
        "b" "k" cbErr =
      (.failure ("callback error: " ++ "boom"),
       [Event.getObjectCall "b" "k", Event.createTempFile "/tmp/s3-overwrite-1.tmp",
        Event.callbackInvoked, Event.removeFile "/tmp/s3-overwrite-1.tmp"]) ∧
    OverwriteS3Object clientTagErr sampleFS "b" "k" cbWrite =
      (.failure ("failed to get object tagging: " ++ "tagfail"),
       [Event.getObjectCall "b" "k", Event.createTempFile "/tmp/s3-overwrite-1.tmp",
        Event.callbackInvoked, Event.getObjectTaggingCall "b" "k"] ++
       exitEvts "/tmp/s3-overwrite-1.tmp" ⟨"/tmp/new", true, [("k1", some "v1")]⟩) ∧
    OverwriteS3Object clientAclErr sampleFS "b" "k" cbWrite =
      (.failure ("failed to get object ACL: " ++ "aclfail"),
       ([Event.getObjectCall "b" "k", Event.createTempFile "/tmp/s3-overwrite-1.tmp",
         Event.callbackInvoked] ++ []) ++
       ([Event.getObjectAclCall "b" "k"] ++
        exitEvts "/tmp/s3-overwrite-1.tmp" ⟨"/tmp/new", true, [("k1", some "v1")]⟩)) :=
  ⟨((fetch_and_callback_failures_abort clientGetErr sampleFS "b" "k" "private" cbWrite).1
      "no such key" rfl).1,
   ((fetch_and_callback_failures_abort (mkClient sampleResp sampleTagSet sampleGrants)
        sampleFS "b" "k" "private" cbErr).2.1 sampleResp "/tmp/s3-overwrite-1.tmp"
      "boom" rfl rfl rfl rfl rfl).1,
   ((fetch_and_callback_failures_abort clientTagErr sampleFS "b" "k" "private" cbWrite).2.2.1
      sampleResp "/tmp/s3-overwrite-1.tmp" ⟨"/tmp/new", true, [("k1", some "v1")]⟩
      "tagfail" rfl rfl rfl rfl rfl (by decide) (by decide) rfl).1,
   (fetch_and_callback_failures_abort clientAclErr sampleFS "b" "k" "private" cbWrite).2.2.2
      sampleRespNoTags "/tmp/s3-overwrite-1.tmp" ⟨"/tmp/new", true, [("k1", some "v1")]⟩
      none [] "aclfail" rfl rfl rfl rfl rfl (by decide)
      (Or.inl ⟨by decide, rfl, rfl⟩) rfl⟩

theorem cleanup_mode1 (client : S3ClientModel) (fs : LocalFS) (bucket key : String)
    (callback : Callback) :
    (∀ t, Event.createTempFile t ∈ (OverwriteS3Object client fs bucket key callback).2 →
       Event.removeFile t ∈ (OverwriteS3Object client fs bucket key callback).2) ∧
    (∀ p, Event.removeFile p ∈ (OverwriteS3Object client fs bucket key callback).2 →
       fs.createTemp = .ok p ∨
       ∃ resp tmp out, client.getObject bucket key = .ok resp ∧ fs.createTemp = .ok tmp ∧
         callback (mkObjectInfo bucket key resp) tmp = .ok out ∧
         out.overwritingFilePath = p ∧ out.autoRemove = true ∧ p ≠ tmp) := by
  have hsh := OverwriteS3Object_shape client fs bucket key callback
  rcases hrun : OverwriteS3Object client fs bucket key callback with ⟨res, tr⟩
  rw [hrun] at hsh
  constructor
  · intro t ht
    cases hsh with
    | getErr e h1 => simp at ht
    | createTempErr resp e h1 h2 => simp at ht
    | copyErr resp tmp e h1 h2 h3 => simp at ht; subst ht; simp
    | seekErr resp tmp e h1 h2 h3 h4 => simp at ht; subst ht; simp
    | callbackFail resp tmp e h1 h2 h3 h4 h5 => simp at ht; subst ht; simp
    | skip resp tmp cbOut h1 h2 h3 h4 h5 h6 => simp at ht; subst ht; simp
    | tagErr resp tmp cbOut e h1 h2 h3 h4 h5 h6 h7 h8 =>
        simp [mem_exitEvts_iff] at ht
        subst ht
        simp [mem_exitEvts_iff]
    | tail resp tmp cbOut tagging evT res2 h1 h2 h3 h4 h5 h6 h7 htail =>
        have hmem := AclTailShape_mem _ _ _ _ _ _ _ _ _ _ htail (Event.createTempFile t) ht
        have hT : t = tmp := by
          rcases h7 with ⟨_, _, hevT⟩ | ⟨_, _, _, _, hevT⟩ <;> subst hevT <;>
            simp [mem_exitEvts_iff] at hmem <;> first | exact hmem | exact hmem.symm
        subst hT
        exact AclTailShape_exit_mem _ _ _ _ _ _ _ _ _ _ htail (Event.removeFile t)
          ((mem_exitEvts_iff t cbOut (Event.removeFile t)).mpr (Or.inr rfl))
  · intro p hp
    cases hsh with
    | getErr e h1 => simp at hp
    | createTempErr resp e h1 h2 => simp at hp
    | copyErr resp tmp e h1 h2 h3 => simp at hp; subst hp; exact Or.inl h2
    | seekErr resp tmp e h1 h2 h3 h4 => simp at hp; subst hp; exact Or.inl h2
    | callbackFail resp tmp e h1 h2 h3 h4 h5 => simp at hp; subst hp; exact Or.inl h2
    | skip resp tmp cbOut h1 h2 h3 h4 h5 h6 => simp at hp; subst hp; exact Or.inl h2
    | tagErr resp tmp cbOut e h1 h2 h3 h4 h5 h6 h7 h8 =>
        simp [mem_exitEvts_iff] at hp
        rcases hp with ⟨⟨har, hne, hnt⟩, heq⟩ | heq
        · subst heq
          exact Or.inr ⟨resp, tmp, cbOut, h1, h2, h5, rfl, har, hnt⟩
        · subst heq
          exact Or.inl h2
    | tail resp tmp cbOut tagging evT res2 h1 h2 h3 h4 h5 h6 h7 htail =>
        have hmem := AclTailShape_mem _ _ _ _ _ _ _ _ _ _ htail (Event.removeFile p) hp
        have hor : (p = cbOut.overwritingFilePath ∧ cbOut.autoRemove = true ∧
            cbOut.overwritingFilePath ≠ "" ∧ cbOut.overwritingFilePath ≠ tmp) ∨ p = tmp := by
          rcases h7 with ⟨_, _, hevT⟩ | ⟨_, _, _, _, hevT⟩ <;> subst hevT <;>
            simp [mem_exitEvts_iff] at hmem <;> tauto
        rcases hor with ⟨heq, har, hne, hnt⟩ | heq
        · exact Or.inr ⟨resp, tmp, cbOut, h1, h2, h5, heq.symm, har, heq ▸ hnt⟩
        · subst heq
          exact Or.inl h2

theorem cleanup_mode2 (client : S3ClientModel) (fs : LocalFS) (bucket key acl : String)
    (callback : Callback) :
    (∀ t, Event.createTempFile t ∈
        (OverwriteS3ObjectWithAcl client fs bucket key acl callback).2 →
       Event.removeFile t ∈ (OverwriteS3ObjectWithAcl client fs bucket key acl callback).2) ∧
    (∀ p, Event.removeFile p ∈
        (OverwriteS3ObjectWithAcl client fs bucket key acl callback).2 →
       fs.createTemp = .ok p ∨
       ∃ resp tmp out, client.getObject bucket key = .ok resp ∧ fs.createTemp = .ok tmp ∧
         callback (mkObjectInfo bucket key resp) tmp = .ok out ∧
         out.overwritingFilePath = p ∧ out.autoRemove = true ∧ p ≠ tmp) := by
  have hsh := OverwriteS3ObjectWithAcl_shape client fs bucket key acl callback
  rcases hrun : OverwriteS3ObjectWithAcl client fs bucket key acl callback with ⟨res, tr⟩
  rw [hrun] at hsh
  constructor
  · intro t ht
    cases hsh with
    | getErr e h1 => simp at ht
    | createTempErr resp e h1 h2 => simp at ht
    | copyErr resp tmp e h1 h2 h3 => simp at ht; subst ht; simp
    | seekErr resp tmp e h1 h2 h3 h4 => simp at ht; subst ht; simp
    | callbackFail resp tmp e h1 h2 h3 h4 h5 => simp at ht; subst ht; simp
    | skip resp tmp cbOut h1 h2 h3 h4 h5 h6 => simp at ht; subst ht; simp
    | tagErr resp tmp cbOut e h1 h2 h3 h4 h5 h6 h7 h8 =>
        simp [mem_exitEvts_iff] at ht
        subst ht
        simp [mem_exitEvts_iff]
    | tail resp tmp cbOut tagging evT res2 h1 h2 h3 h4 h5 h6 h7 htail =>
        have hmem := SimpleTailShape_mem _ _ _ _ _ _ _ _ _ _ _ htail (Event.createTempFile t) ht
        have hT : t = tmp := by
          rcases h7 with ⟨_, _, hevT⟩ | ⟨_, _, _, _, hevT⟩ <;> subst hevT <;>
            simp [mem_exitEvts_iff] at hmem <;> first | exact hmem | exact hmem.symm
        subst hT
        exact SimpleTailShape_exit_mem _ _ _ _ _ _ _ _ _ _ _ htail (Event.removeFile t)
          ((mem_exitEvts_iff t cbOut (Event.removeFile t)).mpr (Or.inr rfl))
  · intro p hp
    cases hsh with
    | getErr e h1 => simp at hp
    | createTempErr resp e h1 h2 => simp at hp
    | copyErr resp tmp e h1 h2 h3 => simp at hp; subst hp; exact Or.inl h2
    | seekErr resp tmp e h1 h2 h3 h4 => simp at hp; subst hp; exact Or.inl h2
    | callbackFail resp tmp e h1 h2 h3 h4 h5 => simp at hp; subst hp; exact Or.inl h2
    | skip resp tmp cbOut h1 h2 h3 h4 h5 h6 => simp at hp; subst hp; exact Or.inl h2
    | tagErr resp tmp cbOut e h1 h2 h3 h4 h5 h6 h7 h8 =>
        simp [mem_exitEvts_iff] at hp
        rcases hp with ⟨⟨har, hne, hnt⟩, heq⟩ | heq
        · subst heq
          exact Or.inr ⟨resp, tmp, cbOut, h1, h2, h5, rfl, har, hnt⟩
        · subst heq
          exact Or.inl h2
    | tail resp tmp cbOut tagging evT res2 h1 h2 h3 h4 h5 h6 h7 htail =>
        have hmem := SimpleTailShape_mem _ _ _ _ _ _ _ _ _ _ _ htail (Event.removeFile p) hp
        have hor : (p = cbOut.overwritingFilePath ∧ cbOut.autoRemove = true ∧
            cbOut.overwritingFilePath ≠ "" ∧ cbOut.overwritingFilePath ≠ tmp) ∨ p = tmp := by
          rcases h7 with ⟨_, _, hevT⟩ | ⟨_, _, _, _, hevT⟩ <;> subst hevT <;>
            simp [mem_exitEvts_iff] at hmem <;> tauto
        rcases hor with ⟨heq, har, hne, hnt⟩ | heq
        · exact Or.inr ⟨resp, tmp, cbOut, h1, h2, h5, heq.symm, har, heq ▸ hnt⟩
        · subst heq
          exact Or.inl h2

/-- C7: in both operations every created temp file is removed on every exit
path, and any other file removal is the `autoRemove` cleanup of a
callback-returned replacement whose path differs from the temp file's. -/
theorem temp_file_removed_on_every_exit (client : S3ClientModel) (fs : LocalFS)
    (bucket key acl : String) (callback : Callback) :
    ((∀ t, Event.createTempFile t ∈ (OverwriteS3Object client fs bucket key callback).2 →
        Event.removeFile t ∈ (OverwriteS3Object client fs bucket key callback).2) ∧
     (∀ p, Event.removeFile p ∈ (OverwriteS3Object client fs bucket key callback).2 →
        fs.createTemp = .ok p ∨
        ∃ resp tmp out, client.getObject bucket key = .ok resp ∧ fs.createTemp = .ok tmp ∧
          callback (mkObjectInfo bucket key resp) tmp = .ok out ∧
          out.overwritingFilePath = p ∧ out.autoRemove = true ∧ p ≠ tmp)) ∧
    ((∀ t, Event.createTempFile t ∈
        (OverwriteS3ObjectWithAcl client fs bucket key acl callback).2 →
        Event.removeFile t ∈ (OverwriteS3ObjectWithAcl client fs bucket key acl callback).2) ∧
     (∀ p, Event.removeFile p ∈
        (OverwriteS3ObjectWithAcl client fs bucket key acl callback).2 →
        fs.createTemp = .ok p ∨
        ∃ resp tmp out, client.getObject bucket key = .ok resp ∧ fs.createTemp = .ok tmp ∧
          callback (mkObjectInfo bucket key resp) tmp = .ok out ∧
          out.overwritingFilePath = p ∧ out.autoRemove = true ∧ p ≠ tmp)) :=
  ⟨cleanup_mode1 client fs bucket key callback,
   cleanup_mode2 client fs bucket key acl callback⟩

/-- Witness for C7: at a concrete run whose callback writes a distinct file
with `autoRemove`, the temp file's creation is matched by its removal. -/
theorem temp_file_removed_on_every_exit_witness :
    Event.removeFile "/tmp/s3-overwrite-1.tmp" ∈
      (OverwriteS3Object (mkClient sampleResp sampleTagSet sampleGrants) sampleFS
        "b" "k" cbWrite).2 :=
  (temp_file_removed_on_every_exit (mkClient sampleResp sampleTagSet sampleGrants)
      sampleFS "b" "k" "private" cbWrite).1.1 "/tmp/s3-overwrite-1.tmp" (by decide)

/-- Inversion for the ACL-preserving mode: any write call in its trace was
built by `addGrantsToInput` over the fetched grants from the snapshot-based
request, after a successful path through fetch, callback and tag phase. -/
theorem putObjectCall_inv_mode1 (client : S3ClientModel) (fs : LocalFS)
    (bucket key : String) (callback : Callback) (pi : PutObjectInput)
    (hp : Event.putObjectCall pi ∈ (OverwriteS3Object client fs bucket key callback).2) :
    ∃ resp tmp cbOut tagging evT grants,
      client.getObject bucket key = .ok resp ∧ fs.createTemp = .ok tmp ∧
      callback (mkObjectInfo bucket key resp) tmp = .ok cbOut ∧
      cbOut.overwritingFilePath ≠ "" ∧
      tagPhase client bucket key resp tagging evT ∧
      client.getObjectAcl bucket key = .ok grants ∧
      addGrantsToPutObjectInput (mkPutObjectInput bucket key "" resp cbOut tagging)
        grants false = some pi := by
  have hsh := OverwriteS3Object_shape client fs bucket key callback
  rcases hrun : OverwriteS3Object client fs bucket key callback with ⟨res, tr⟩
  rw [hrun] at hsh hp
  cases hsh with
  | getErr e h1 => simp at hp
  | createTempErr resp e h1 h2 => simp at hp
  | copyErr resp tmp e h1 h2 h3 => simp at hp
  | seekErr resp tmp e h1 h2 h3 h4 => simp at hp
  | callbackFail resp tmp e h1 h2 h3 h4 h5 => simp at hp
  | skip resp tmp cbOut h1 h2 h3 h4 h5 h6 => simp at hp
  | tagErr resp tmp cbOut e h1 h2 h3 h4 h5 h6 h7 h8 => simp [mem_exitEvts_iff] at hp
  | tail resp tmp cbOut tagging evT res2 h1 h2 h3 h4 h5 h6 h7 htail =>
      have hmem := AclTailShape_mem _ _ _ _ _ _ _ _ _ _ htail (Event.putObjectCall pi) hp
      have hx : ∃ grants, client.getObjectAcl bucket key = .ok grants ∧
          addGrantsToPutObjectInput (mkPutObjectInput bucket key "" resp cbOut tagging)
            grants false = some pi := by
        rcases h7 with ⟨_, _, hevT⟩ | ⟨_, _, _, _, hevT⟩ <;> subst hevT <;>
          simp [mem_exitEvts_iff] at hmem <;>
          exact hmem
      obtain ⟨grants, hacl, hgr⟩ := hx
      exact ⟨resp, tmp, cbOut, tagging, evT, grants, h1, h2, h5, h6, h7, hacl, hgr⟩

/-- Inversion for the explicit-simple-ACL mode: any write call in its trace
is exactly the snapshot-based request with the canned ACL. -/
theorem putObjectCall_inv_mode2 (client : S3ClientModel) (fs : LocalFS)
    (bucket key acl : String) (callback : Callback) (pi : PutObjectInput)
    (hp : Event.putObjectCall pi ∈
      (OverwriteS3ObjectWithAcl client fs bucket key acl callback).2) :
    ∃ resp tmp cbOut tagging evT,
      client.getObject bucket key = .ok resp ∧ fs.createTemp = .ok tmp ∧
      callback (mkObjectInfo bucket key resp) tmp = .ok cbOut ∧
      cbOut.overwritingFilePath ≠ "" ∧
      tagPhase client bucket key resp tagging evT ∧
      pi = mkPutObjectInput bucket key acl resp cbOut tagging := by
  have hsh := OverwriteS3ObjectWithAcl_shape client fs bucket key acl callback
  rcases hrun : OverwriteS3ObjectWithAcl client fs bucket key acl callback with ⟨res, tr⟩
  rw [hrun] at hsh hp
  cases hsh with
  | getErr e h1 => simp at hp
  | createTempErr resp e h1 h2 => simp at hp
  | copyErr resp tmp e h1 h2 h3 => simp at hp
  | seekErr resp tmp e h1 h2 h3 h4 => simp at hp
  | callbackFail resp tmp e h1 h2 h3 h4 h5 => simp at hp
  | skip resp tmp cbOut h1 h2 h3 h4 h5 h6 => simp at hp
  | tagErr resp tmp cbOut e h1 h2 h3 h4 h5 h6 h7 h8 => simp [mem_exitEvts_iff] at hp
  | tail resp tmp cbOut tagging evT res2 h1 h2 h3 h4 h5 h6 h7 htail =>
      have hmem := SimpleTailShape_mem _ _ _ _ _ _ _ _ _ _ _ htail (Event.putObjectCall pi) hp
      have hx : pi = mkPutObjectInput bucket key acl resp cbOut tagging := by
        rcases h7 with ⟨_, _, hevT⟩ | ⟨_, _, _, _, hevT⟩ <;> subst hevT <;>
          simp [mem_exitEvts_iff] at hmem <;> exact hmem
      exact ⟨resp, tmp, cbOut, tagging, evT, h1, h2, h5, h6, h7, hx⟩

/-- In the ACL-preserving mode, when the snapshot reports no tags or the
fetched tag set is empty, any write call carries no tagging field. -/
theorem putObject_tagging_none_mode1 (client : S3ClientModel) (fs : LocalFS)
    (bucket key : String) (callback : Callback) (resp : GetObjectOutput)
    (hGet : client.getObject bucket key = .ok resp)
    (h0 : tagCountPositive resp.tagCount = false ∨
      client.getObjectTagging bucket key = .ok []) :
    ∀ pi, Event.putObjectCall pi ∈ (OverwriteS3Object client fs bucket key callback).2 →
      pi.tagging = none := by
  intro pi hp
  obtain ⟨resp2, tmp, cbOut, tagging, evT, grants, h1, h2, h5, h6, h7, hacl, hgr⟩ :=
    putObjectCall_inv_mode1 client fs bucket key callback pi hp
  rw [hGet] at h1
  injection h1 with h1
  subst h1
  have htg : tagging = none := by
    rcases h7 with ⟨_, ht, _⟩ | ⟨hpos, ts, hts, ht, _⟩
    · exact ht
    · rcases h0 with h0 | h0
      · rw [h0] at hpos; cases hpos
      · rw [h0] at hts
        injection hts with hts
        subst hts
        simpa using ht
  subst htg
  have hf := addGrantsToPutObjectInput_fields _ _ _ _ hgr
  simpa [mkPutObjectInput] using hf.2.2.2.2.2.2.2.2.2.2.2

/-- As `putObject_tagging_none_mode1`, for the explicit-simple-ACL mode. -/
theorem putObject_tagging_none_mode2 (client : S3ClientModel) (fs : LocalFS)
    (bucket key acl : String) (callback : Callback) (resp : GetObjectOutput)
    (hGet : client.getObject bucket key = .ok resp)
    (h0 : tagCountPositive resp.tagCount = false ∨
      client.getObjectTagging bucket key = .ok []) :
    ∀ pi, Event.putObjectCall pi ∈
        (OverwriteS3ObjectWithAcl client fs bucket key acl callback).2 →
      pi.tagging = none := by
  intro pi hp
  obtain ⟨resp2, tmp, cbOut, tagging, evT, h1, h2, h5, h6, h7, hx⟩ :=
    putObjectCall_inv_mode2 client fs bucket key acl callback pi hp
  rw [hGet] at h1
  injection h1 with h1
  subst h1
  have htg : tagging = none := by
    rcases h7 with ⟨_, ht, _⟩ | ⟨hpos, ts, hts, ht, _⟩
    · exact ht
    · rcases h0 with h0 | h0
      · rw [h0] at hpos; cases hpos
      · rw [h0] at hts
        injection hts with hts
        subst hts
        simpa using ht
  subst htg
  subst hx
  simp [mkPutObjectInput]

/-- C4: whenever the write step is reached, in both modes the write request
carries forward content type, cache-control, content-disposition,
content-encoding, content-language, website-redirect-location, storage class
from the fetched object, and the metadata mapping as left by the callback. -/
theorem write_carries_forward_attributes (client : S3ClientModel) (fs : LocalFS)
    (bucket key acl : String) (callback : Callback) (resp : GetObjectOutput)
    (tmp : String) (out : CallbackOut)
    (hGet : client.getObject bucket key = .ok resp)
    (hTmp : fs.createTemp = .ok tmp)
    (hCb : callback (mkObjectInfo bucket key resp) tmp = .ok out) :
    (∀ pi, Event.putObjectCall pi ∈ (OverwriteS3Object client fs bucket key callback).2 →
      pi.contentType = resp.contentType ∧ pi.cacheControl = resp.cacheControl ∧
      pi.contentDisposition = resp.contentDisposition ∧
      pi.contentEncoding = resp.contentEncoding ∧
      pi.contentLanguage = resp.contentLanguage ∧
      pi.websiteRedirectLocation = resp.websiteRedirectLocation ∧
      pi.storageClass = resp.storageClass ∧
      pi.metadata = convertMetadataFromPointers (postCallbackMetadata resp.metadata out)) ∧
    (∀ pi, Event.putObjectCall pi ∈
        (OverwriteS3ObjectWithAcl client fs bucket key acl callback).2 →
      pi.contentType = resp.contentType ∧ pi.cacheControl = resp.cacheControl ∧
      pi.contentDisposition = resp.contentDisposition ∧
      pi.contentEncoding = resp.contentEncoding ∧
      pi.contentLanguage = resp.contentLanguage ∧
      pi.websiteRedirectLocation = resp.websiteRedirectLocation ∧
      pi.storageClass = resp.storageClass ∧
      pi.metadata = convertMetadataFromPointers (postCallbackMetadata resp.metadata out)) := by
  constructor
  · intro pi hp
    obtain ⟨resp2, tmp2, cbOut, tagging, evT, grants, h1, h2, h5, h6, h7, hacl, hgr⟩ :=
      putObjectCall_inv_mode1 client fs bucket key callback pi hp
    rw [hGet] at h1
    injection h1 with h1
    subst h1
    rw [hTmp] at h2
    injection h2 with h2
    subst h2
    rw [hCb] at h5
    injection h5 with h5
    subst h5
    obtain ⟨_, _, _, hct, hcc, hcd, hce, hcl, hwr, hsc, hmd, _⟩ :=
      addGrantsToPutObjectInput_fields _ _ _ _ hgr
    exact ⟨by simpa [mkPutObjectInput] using hct,
           by simpa [mkPutObjectInput] using hcc,
           by simpa [mkPutObjectInput] using hcd,
           by simpa [mkPutObjectInput] using hce,
           by simpa [mkPutObjectInput] using hcl,
           by simpa [mkPutObjectInput] using hwr,
           by simpa [mkPutObjectInput] using hsc,
           by simpa [mkPutObjectInput] using hmd⟩
  · intro pi hp
    obtain ⟨resp2, tmp2, cbOut, tagging, evT, h1, h2, h5, h6, h7, hx⟩ :=
      putObjectCall_inv_mode2 client fs bucket key acl callback pi hp
    rw [hGet] at h1
    injection h1 with h1
    subst h1
    rw [hTmp] at h2
    injection h2 with h2
    subst h2
    rw [hCb] at h5
    injection h5 with h5
    subst h5
    subst hx
    exact ⟨rfl, rfl, rfl, rfl, rfl, rfl, rfl, rfl⟩

/-- Witness for C4 at a concrete run: the issued write request's attributes
equal the fetched object's. -/
theorem write_carries_forward_attributes_witness :
    samplePutTagged.contentType = sampleResp.contentType ∧
    samplePutTagged.cacheControl = sampleResp.cacheControl ∧
    samplePutTagged.contentDisposition = sampleResp.contentDisposition ∧
    samplePutTagged.contentEncoding = sampleResp.contentEncoding ∧
    samplePutTagged.contentLanguage = sampleResp.contentLanguage ∧
    samplePutTagged.websiteRedirectLocation = sampleResp.websiteRedirectLocation ∧
    samplePutTagged.storageClass = sampleResp.storageClass ∧
    samplePutTagged.metadata = convertMetadataFromPointers
      (postCallbackMetadata sampleResp.metadata ⟨"/tmp/new", true, [("k1", some "v1")]⟩) :=
  (write_carries_forward_attributes (mkClient sampleResp sampleTagSet sampleGrants)
      sampleFS "b" "k" "private" cbWrite sampleResp "/tmp/s3-overwrite-1.tmp"
      ⟨"/tmp/new", true, [("k1", some "v1")]⟩ rfl rfl rfl).1
    samplePutTagged (by decide)

/-- C6: the tag serializer joins the escaped `key=value` pairs with `&` in
input order, the empty list yields the empty string, and when the object
reports no tags or the fetched tag set is empty the write request's tagging
field is omitted (none), in both modes. -/
theorem tagging_serialization_and_omission :
    (∀ tags, buildTaggingString tags = String.intercalate "&" (tags.map tagPair)) ∧
    buildTaggingString [] = "" ∧
    (∀ (client : S3ClientModel) (fs : LocalFS) (bucket key acl : String)
        (callback : Callback) (resp : GetObjectOutput),
      client.getObject bucket key = .ok resp →
      (tagCountPositive resp.tagCount = false ∨
        client.getObjectTagging bucket key = .ok []) →
      (∀ pi, Event.putObjectCall pi ∈
          (OverwriteS3Object client fs bucket key callback).2 → pi.tagging = none) ∧
      (∀ pi, Event.putObjectCall pi ∈
          (OverwriteS3ObjectWithAcl client fs bucket key acl callback).2 →
        pi.tagging = none)) :=
  ⟨buildTaggingString_eq_intercalate, rfl,
   fun client fs bucket key acl callback resp hGet h0 =>
     ⟨putObject_tagging_none_mode1 client fs bucket key callback resp hGet h0,
      putObject_tagging_none_mode2 client fs bucket key acl callback resp hGet h0⟩⟩

/-- Witness for C6: the spec's example tag list serializes to
`env=test&purpose=e2e-test`, and a zero-tag-count run's write request has no
tagging field. -/
theorem tagging_serialization_and_omission_witness :
    buildTaggingString sampleTagSet = String.intercalate "&" (sampleTagSet.map tagPair) ∧
    String.intercalate "&" (sampleTagSet.map tagPair) = "env=test&purpose=e2e-test" ∧
    samplePutNoTags.tagging = none :=
  ⟨tagging_serialization_and_omission.1 sampleTagSet, by decide,
   (tagging_serialization_and_omission.2.2 (mkClient sampleRespNoTags sampleTagSet
        sampleGrants) sampleFS "b" "k" "private" cbWrite sampleRespNoTags rfl
      (Or.inl (by decide))).1 samplePutNoTags (by decide)⟩

/-- C8: the tag fetch is issued only when the snapshot's tag count is
strictly positive and the callback decided to write; when the indicator is
absent or non-positive no tag fetch happens and the write carries no tagging
field — in both modes. -/
theorem tag_fetch_only_when_positive_and_writing (client : S3ClientModel) (fs : LocalFS)
    (bucket key acl : String) (callback : Callback) :
    (Event.getObjectTaggingCall bucket key ∈
        (OverwriteS3Object client fs bucket key callback).2 →
      ∃ resp tmp out, client.getObject bucket key = .ok resp ∧
        tagCountPositive resp.tagCount = true ∧ fs.createTemp = .ok tmp ∧
        callback (mkObjectInfo bucket key resp) tmp = .ok out ∧
        out.overwritingFilePath ≠ "") ∧
    (Event.getObjectTaggingCall bucket key ∈
        (OverwriteS3ObjectWithAcl client fs bucket key acl callback).2 →
      ∃ resp tmp out, client.getObject bucket key = .ok resp ∧
        tagCountPositive resp.tagCount = true ∧ fs.createTemp = .ok tmp ∧
        callback (mkObjectInfo bucket key resp) tmp = .ok out ∧
        out.overwritingFilePath ≠ "") ∧
    (∀ resp, client.getObject bucket key = .ok resp →
      tagCountPositive resp.tagCount = false →
      (∀ pi, Event.putObjectCall pi ∈
          (OverwriteS3Object client fs bucket key callback).2 → pi.tagging = none) ∧
      (∀ pi, Event.putObjectCall pi ∈
          (OverwriteS3ObjectWithAcl client fs bucket key acl callback).2 →
        pi.tagging = none)) := by
  refine ⟨?_, ?_, fun resp hGet hneg =>
    ⟨putObject_tagging_none_mode1 client fs bucket key callback resp hGet (Or.inl hneg),
     putObject_tagging_none_mode2 client fs bucket key acl callback resp hGet
       (Or.inl hneg)⟩⟩
  · intro hp
    have hsh := OverwriteS3Object_shape client fs bucket key callback
    rcases hrun : OverwriteS3Object client fs bucket key callback with ⟨res, tr⟩
    rw [hrun] at hsh hp
    cases hsh with
    | getErr e h1 => simp at hp
    | createTempErr resp e h1 h2 => simp at hp
    | copyErr resp tmp e h1 h2 h3 => simp at hp
    | seekErr resp tmp e h1 h2 h3 h4 => simp at hp
    | callbackFail resp tmp e h1 h2 h3 h4 h5 => simp at hp
    | skip resp tmp cbOut h1 h2 h3 h4 h5 h6 => simp at hp
    | tagErr resp tmp cbOut e h1 h2 h3 h4 h5 h6 h7 h8 =>
        exact ⟨resp, tmp, cbOut, h1, h7, h2, h5, h6⟩
    | tail resp tmp cbOut tagging evT res2 h1 h2 h3 h4 h5 h6 h7 htail =>
        have hmem := AclTailShape_mem _ _ _ _ _ _ _ _ _ _ htail _ hp
        rcases h7 with ⟨hneg, _, hevT⟩ | ⟨hpos, _, _, _, hevT⟩
        · subst hevT; simp [mem_exitEvts_iff] at hmem
        · exact ⟨resp, tmp, cbOut, h1, hpos, h2, h5, h6⟩
  · intro hp
    have hsh := OverwriteS3ObjectWithAcl_shape client fs bucket key acl callback
    rcases hrun : OverwriteS3ObjectWithAcl client fs bucket key acl callback with ⟨res, tr⟩
    rw [hrun] at hsh hp
    cases hsh with
    | getErr e h1 => simp at hp
    | createTempErr resp e h1 h2 => simp at hp
    | copyErr resp tmp e h1 h2 h3 => simp at hp
    | seekErr resp tmp e h1 h2 h3 h4 => simp at hp
    | callbackFail resp tmp e h1 h2 h3 h4 h5 => simp at hp
    | skip resp tmp cbOut h1 h2 h3 h4 h5 h6 => simp at hp
    | tagErr resp tmp cbOut e h1 h2 h3 h4 h5 h6 h7 h8 =>
        exact ⟨resp, tmp, cbOut, h1, h7, h2, h5, h6⟩
    | tail resp tmp cbOut tagging evT res2 h1 h2 h3 h4 h5 h6 h7 htail =>
        have hmem := SimpleTailShape_mem _ _ _ _ _ _ _ _ _ _ _ htail _ hp
        rcases h7 with ⟨hneg, _, hevT⟩ | ⟨hpos, _, _, _, hevT⟩
        · subst hevT; simp [mem_exitEvts_iff] at hmem
        · exact ⟨resp, tmp, cbOut, h1, hpos, h2, h5, h6⟩

/-- Witness for C8: a run against a positively tagged object does fetch tags,
so the existential holds concretely. -/
theorem tag_fetch_only_when_positive_and_writing_witness :
    ∃ resp tmp out,
      (mkClient sampleResp sampleTagSet sampleGrants).getObject "b" "k" = .ok resp ∧
      tagCountPositive resp.tagCount = true ∧ sampleFS.createTemp = .ok tmp ∧
      cbWrite (mkObjectInfo "b" "k" resp) tmp = .ok out ∧
      out.overwritingFilePath ≠ "" :=
  (tag_fetch_only_when_positive_and_writing (mkClient sampleResp sampleTagSet sampleGrants)
      sampleFS "b" "k" "private" cbWrite).1 (by decide)

/-- In the post-tag tail of the ACL-preserving mode, with well-formed grants
and a succeeding write: the issued write request's grant fields are exactly
the four non-WRITE serializations; when the grants contain WRITE a
permission-update call carrying all five serializations (including WRITE)
follows, and when they do not, any permission-update event already belonged
to the accumulated prefix. -/
theorem aclAfterTags_write_restore (client : S3ClientModel) (fs : LocalFS)
    (bucket key : String) (resp : GetObjectOutput) (cbOut : CallbackOut)
    (tmp : String) (tagging : Option String) (ev : List Event) (grants : List Grant)
    (hAcl : client.getObjectAcl bucket key = .ok grants)
    (hOpen : fs.openFile cbOut.overwritingFilePath = .ok ())
    (hWF : grantsWellFormed grants = true)
    (hPut : ∀ pi, client.putObject pi = .ok ()) :
    (∃ pi, Event.putObjectCall pi ∈
        (aclAfterTags client fs bucket key resp cbOut tmp tagging ev).2 ∧
      pi.grantRead = strToOpt (grantStringSpec grants "READ") ∧
      pi.grantReadACP = strToOpt (grantStringSpec grants "READ_ACP") ∧
      pi.grantWriteACP = strToOpt (grantStringSpec grants "WRITE_ACP") ∧
      pi.grantFullControl = strToOpt (grantStringSpec grants "FULL_CONTROL")) ∧
    (hasWriteGrant grants = true →
      ∃ ai, Event.putObjectAclCall ai ∈
          (aclAfterTags client fs bucket key resp cbOut tmp tagging ev).2 ∧
        ai.grantRead = strToOpt (grantStringSpec grants "READ") ∧
        ai.grantReadACP = strToOpt (grantStringSpec grants "READ_ACP") ∧
        ai.grantWriteACP = strToOpt (grantStringSpec grants "WRITE_ACP") ∧
        ai.grantFullControl = strToOpt (grantStringSpec grants "FULL_CONTROL") ∧
        ai.grantWrite = strToOpt (grantStringSpec grants "WRITE")) ∧
    (hasWriteGrant grants = false →
      ∀ ai, Event.putObjectAclCall ai ∈
          (aclAfterTags client fs bucket key resp cbOut tmp tagging ev).2 →
        Event.putObjectAclCall ai ∈ ev) := by
  unfold aclAfterTags
  rw [hAcl]
  dsimp only
  rw [hOpen]
  dsimp only
  rw [addGrantsToPutObjectInput_mk bucket key "" resp cbOut tagging grants false hWF]
  dsimp only
  rw [hPut _]
  dsimp only
  cases hwg : hasWriteGrant grants with
  | false =>
    rw [if_neg (by simp [hwg])]
    refine ⟨⟨grantedPutInput bucket key "" resp cbOut tagging grants,
              by simp, rfl, rfl, rfl, rfl⟩,
            fun h => absurd h (by simp),
            fun _ ai hmem => ?_⟩
    simp only [List.mem_append, List.cons_append, List.nil_append, List.mem_cons,
      mem_exitEvts_iff] at hmem
    simp at hmem
    exact hmem
  | true =>
    rw [if_pos (by simp [hwg])]
    rw [addGrantsToPutObjectAclInput_mk bucket key grants hWF]
    dsimp only
    cases hpa : client.putObjectAcl (grantedAclInput bucket key grants) with
    | error e =>
      exact ⟨⟨grantedPutInput bucket key "" resp cbOut tagging grants,
               by simp, rfl, rfl, rfl, rfl⟩,
             fun _ => ⟨grantedAclInput bucket key grants,
               by simp, rfl, rfl, rfl, rfl, rfl⟩,
             fun h => absurd h (by simp)⟩
    | ok u =>
      exact ⟨⟨grantedPutInput bucket key "" resp cbOut tagging grants,
               by simp, rfl, rfl, rfl, rfl⟩,
             fun _ => ⟨grantedAclInput bucket key grants,
               by simp, rfl, rfl, rfl, rfl, rfl⟩,
             fun h => absurd h (by simp)⟩

/-- C1: in the ACL-preserving mode, when the callback decides to write and
the path succeeds, the write request's grant fields are exactly the four
non-WRITE serializations of the fetched grants — the write request type,
mirroring the store's write-object parameters, has no WRITE grant field at
all — and a separate permission-update call carrying the original READ,
READ_ACP, WRITE_ACP, FULL_CONTROL and WRITE grant strings is issued after a
successful write if and only if some fetched grant has permission WRITE. -/
theorem write_excludes_write_grant_and_restores_acl (client : S3ClientModel)
    (fs : LocalFS) (bucket key : String) (callback : Callback)
    (resp : GetObjectOutput) (tmp : String) (out : CallbackOut) (grants : List Grant)
    (hGet : client.getObject bucket key = .ok resp)
    (hTmp : fs.createTemp = .ok tmp)
    (hCopy : fs.copyResult = .ok ())
    (hSeek : fs.seekResult = .ok ())
    (hCb : callback (mkObjectInfo bucket key resp) tmp = .ok out)
    (hW : out.overwritingFilePath ≠ "")
    (hTags : tagCountPositive resp.tagCount = false ∨
      ∃ ts, client.getObjectTagging bucket key = .ok ts)
    (hAcl : client.getObjectAcl bucket key = .ok grants)
    (hOpen : fs.openFile out.overwritingFilePath = .ok ())
    (hWF : grantsWellFormed grants = true)
    (hPut : ∀ pi, client.putObject pi = .ok ()) :
    (∃ pi, Event.putObjectCall pi ∈ (OverwriteS3Object client fs bucket key callback).2 ∧
      pi.grantRead = strToOpt (grantStringSpec grants "READ") ∧
      pi.grantReadACP = strToOpt (grantStringSpec grants "READ_ACP") ∧
      pi.grantWriteACP = strToOpt (grantStringSpec grants "WRITE_ACP") ∧
      pi.grantFullControl = strToOpt (grantStringSpec grants "FULL_CONTROL")) ∧
    (hasWriteGrant grants = true →
      ∃ ai, Event.putObjectAclCall ai ∈
          (OverwriteS3Object client fs bucket key callback).2 ∧
        ai.grantRead = strToOpt (grantStringSpec grants "READ") ∧
        ai.grantReadACP = strToOpt (grantStringSpec grants "READ_ACP") ∧
        ai.grantWriteACP = strToOpt (grantStringSpec grants "WRITE_ACP") ∧
        ai.grantFullControl = strToOpt (grantStringSpec grants "FULL_CONTROL") ∧
        ai.grantWrite = strToOpt (grantStringSpec grants "WRITE")) ∧
    (hasWriteGrant grants = false →
      ∀ ai, Event.putObjectAclCall ai ∉
        (OverwriteS3Object client fs bucket key callback).2) := by
  unfold OverwriteS3Object
  rw [hGet, hTmp, hCopy, hSeek]
  dsimp only
  rw [hCb]
  dsimp only
  rw [if_neg hW]
  cases htc : tagCountPositive resp.tagCount with
  | false =>
    rw [if_neg (by simp [htc])]
    obtain ⟨p1, p2, p3⟩ := aclAfterTags_write_restore client fs bucket key resp out tmp
      none [Event.getObjectCall bucket key, Event.createTempFile tmp,
            Event.callbackInvoked] grants hAcl hOpen hWF hPut
    refine ⟨p1, p2, fun h ai hmem => ?_⟩
    have := p3 h ai hmem
    simp at this
  | true =>
    rcases hTags with hTags | ⟨ts, hts⟩
    · rw [htc] at hTags; cases hTags
    · rw [if_pos (by simp [htc]), hts]
      dsimp only
      obtain ⟨p1, p2, p3⟩ := aclAfterTags_write_restore client fs bucket key resp out tmp
        (if ts.length > 0 then some (buildTaggingString ts) else none)
        [Event.getObjectCall bucket key, Event.createTempFile tmp,
         Event.callbackInvoked, Event.getObjectTaggingCall bucket key] grants
        hAcl hOpen hWF hPut
      refine ⟨p1, p2, fun h ai hmem => ?_⟩
      have := p3 h ai hmem
      simp at this

/-- Witness for C1: the concrete run against `sampleGrants` (which contain a
WRITE grant) issues the write with the non-WRITE grant fields and then the
permission-update with all five grant strings. -/
theorem write_excludes_write_grant_and_restores_acl_witness :
    (∃ pi, Event.putObjectCall pi ∈
        (OverwriteS3Object (mkClient sampleResp sampleTagSet sampleGrants) sampleFS
          "b" "k" cbWrite).2 ∧
      pi.grantRead = strToOpt (grantStringSpec sampleGrants "READ") ∧
      pi.grantReadACP = strToOpt (grantStringSpec sampleGrants "READ_ACP") ∧
      pi.grantWriteACP = strToOpt (grantStringSpec sampleGrants "WRITE_ACP") ∧
      pi.grantFullControl = strToOpt (grantStringSpec sampleGrants "FULL_CONTROL")) ∧
    (∃ ai, Event.putObjectAclCall ai ∈
        (OverwriteS3Object (mkClient sampleResp sampleTagSet sampleGrants) sampleFS
          "b" "k" cbWrite).2 ∧
      ai.grantRead = strToOpt (grantStringSpec sampleGrants "READ") ∧
      ai.grantReadACP = strToOpt (grantStringSpec sampleGrants "READ_ACP") ∧
      ai.grantWriteACP = strToOpt (grantStringSpec sampleGrants "WRITE_ACP") ∧
      ai.grantFullControl = strToOpt (grantStringSpec sampleGrants "FULL_CONTROL") ∧
      ai.grantWrite = strToOpt (grantStringSpec sampleGrants "WRITE")) :=
  ⟨(write_excludes_write_grant_and_restores_acl
      (mkClient sampleResp sampleTagSet sampleGrants) sampleFS "b" "k" cbWrite
      sampleResp "/tmp/s3-overwrite-1.tmp" ⟨"/tmp/new", true, [("k1", some "v1")]⟩
      sampleGrants rfl rfl rfl rfl rfl (by decide)
      (Or.inr ⟨sampleTagSet, rfl⟩) rfl rfl (by decide) (fun _ => rfl)).1,
   (write_excludes_write_grant_and_restores_acl
      (mkClient sampleResp sampleTagSet sampleGrants) sampleFS "b" "k" cbWrite
      sampleResp "/tmp/s3-overwrite-1.tmp" ⟨"/tmp/new", true, [("k1", some "v1")]⟩
      sampleGrants rfl rfl rfl rfl rfl (by decide)
      (Or.inr ⟨sampleTagSet, rfl⟩) rfl rfl (by decide) (fun _ => rfl)).2.1 (by decide)⟩

end S3Overwrite
